import Mathlib

/-!
Verification development for `highpycharts.py`, a module of helper functions that
transform a timestamp-indexed pandas table into configuration objects for the
python-highcharts charting library.

Shallow embedding conventions:
* A pandas `Timestamp` is represented by its internal value, an integer count of
  epoch nanoseconds (`Int`).
* A dataframe cell is either a numeric value (`Rat`, the exact idealisation of the
  float arithmetic used by pandas) or a timestamp.
* A dataframe is its index (a list of timestamps) together with its named columns
  in order.  Well-formedness (`DataFrame.wf`) says every column has as many entries
  as the index has rows.
* Option dictionaries handed to `set_dict_options` are modelled by the JSON-like
  inductive `J`, translated literally from the nested dict literals of the source.
* The chart object (`Highchart` / `Highstock`) is modelled as the list of data sets
  attached by `add_data_set` plus the option dictionary set by `set_dict_options`.
* Fallible steps (the `IndexError` of `default_colors[i]`, the `ValueError` of the
  positional column rename in `boxplot`) are modelled with `Except String`.
* Python-object mutation is modelled separately by a store-based embedding
  (`Store`, the `*_heap` builders below): the store is a heap of dataframe objects,
  `df.copy()` allocates, in-place column assignment writes to the allocated cell.
-/

/-- JSON-like values: the nested option dictionaries the builders pass to
`set_dict_options`, translated literally from the dict literals in the source. -/
inductive J where
  | str (s : String)
  | int (n : Int)
  | rat (q : Rat)
  | bool (b : Bool)
  | obj (fields : List (String × J))
  | arr (items : List J)

/-- Look up a key of a JSON object (first match, as in a Python dict). -/
def J.getKey : J → String → Option J
  | J.obj fs, k => (fs.find? (fun f => f.1 = k)).map Prod.snd
  | _, _ => none

/-- Top-level key list of a JSON object, in order. -/
def J.keys : J → List String
  | J.obj fs => fs.map Prod.fst
  | _ => []

/-- Model of `toolz.assoc d k v`: a copy of the dict with key `k` set to `v`
(replaced in place when present, appended otherwise). -/
def jassoc (j : J) (k : String) (v : J) : J :=
  match j with
  | J.obj fs =>
      if fs.any (fun f => f.1 = k) then
        J.obj (fs.map (fun f => if f.1 = k then (k, v) else f))
      else
        J.obj (fs ++ [(k, v)])
  | other => other

/-- A dataframe cell: a numeric value or a timestamp (epoch nanoseconds, the
internal representation of a pandas `Timestamp`). -/
inductive Cell where
  | num (q : Rat)
  | time (t : Int)
deriving DecidableEq, Repr

/-- The numeric content of a cell (a timestamp counts as its epoch-nanosecond
value, matching the int64 that backs it). -/
def cellVal : Cell → Rat
  | Cell.num q => q
  | Cell.time t => (t : Rat)

/-- Comparison of cells, used to model pandas sorting of values and of group
keys.  Cells of one kind compare by their payload; pandas raises on mixed-kind
comparisons, which the claims never exercise, so mixed kinds are ordered
arbitrarily (timestamps first) to keep the model total. -/
def cellLe : Cell → Cell → Prop
  | Cell.time a, Cell.time b => a ≤ b
  | Cell.time _, Cell.num _ => True
  | Cell.num _, Cell.time _ => False
  | Cell.num a, Cell.num b => a ≤ b

instance : DecidableRel cellLe := fun a b =>
  match a, b with
  | Cell.time a, Cell.time b => inferInstanceAs (Decidable (a ≤ b))
  | Cell.time _, Cell.num _ => inferInstanceAs (Decidable True)
  | Cell.num _, Cell.time _ => inferInstanceAs (Decidable False)
  | Cell.num a, Cell.num b => inferInstanceAs (Decidable (a ≤ b))

/-- Row comparison used by `data.sort_values(column_1)` in `boxplot`: rows of
the two-column frame compare by their value cell. -/
def rowLe (a b : Cell × Cell) : Prop := cellLe a.2 b.2

instance : DecidableRel rowLe := fun a b => inferInstanceAs (Decidable (cellLe a.2 b.2))

/-- A pandas dataframe: timestamp index plus named columns in order. -/
structure DataFrame where
  index : List Int
  cols : List (String × List Cell)
deriving DecidableEq, Repr

/-- Well-formed frame: every column has one entry per index row. -/
def DataFrame.wf (df : DataFrame) : Prop :=
  ∀ c ∈ df.cols, c.2.length = df.index.length

instance (df : DataFrame) : Decidable df.wf :=
  inferInstanceAs (Decidable (∀ c ∈ df.cols, c.2.length = df.index.length))

/-- Model of `data.copy()` at the value level: the copy holds the same data.
Object identity (the reason the source copies at all) is modelled by the
store-based embedding below. -/
def DataFrame.copy (df : DataFrame) : DataFrame := df

/-- Model of column assignment `data[name] = vals`: every column labelled `name`
is overwritten in place; if none exists the column is appended. -/
def DataFrame.setColumn (df : DataFrame) (name : String) (vals : List Cell) : DataFrame :=
  if df.cols.any (fun c => c.1 = name) then
    { df with cols := df.cols.map (fun c => if c.1 = name then (name, vals) else c) }
  else
    { df with cols := df.cols ++ [(name, vals)] }

/-- Model of `data.reset_index(drop=True)`: the index becomes `0, 1, ...`;
columns are untouched. -/
def DataFrame.resetIndexDrop (df : DataFrame) : DataFrame :=
  ⟨(List.range df.index.length).map Int.ofNat, df.cols⟩

/-- Model of `data.reset_index()` (no drop): the old index is inserted as a
leading column named `index` (the unnamed-index case of pandas) and the index
becomes `0, 1, ...`. -/
def DataFrame.resetIndex (df : DataFrame) : DataFrame :=
  ⟨(List.range df.index.length).map Int.ofNat,
   ("index", df.index.map Cell.time) :: df.cols⟩

/-- All columns labelled `name`, in order (pandas label selection keeps
duplicate labels). -/
def DataFrame.colsMatching (df : DataFrame) (name : String) : List (List Cell) :=
  (df.cols.filter (fun c => c.1 = name)).map Prod.snd

/-- Model of `data.loc[:, names].values.tolist()`: one row (list of cells) per
index position, drawing, for each requested label in order, every column that
carries it.  The default cell can only surface on an ill-formed frame. -/
def DataFrame.locList (df : DataFrame) (names : List String) : List (List Cell) :=
  let selected := names.flatMap df.colsMatching
  (List.range df.index.length).map (fun j => selected.map (fun c => c.getD j (Cell.num 0)))

/-- One attached data set of a chart: the positional and keyword arguments of a
`H.add_data_set(data, series_type, name, color=..., yAxis=..., tooltip=...)`
call.  `yAxis` is 0 when the keyword is absent. -/
structure Series where
  data : List (List Cell)
  stype : String
  name : String
  color : Option String
  yAxis : Nat
  tooltip : Option J

/-- The chart handle: canvas size, attached data sets, bulk options. -/
structure Chart where
  width : Int
  height : Int
  series : List Series
  options : J

/-- Model of `Highstock(width=..., height=...)`. -/
def Highstock (w h : Int) : Chart := ⟨w, h, [], J.obj []⟩

/-- Model of `Highchart(width=..., height=...)`. -/
def Highchart (w h : Int) : Chart := ⟨w, h, [], J.obj []⟩

/-- Model of `H.add_data_set(d, stype, name, color=c, yAxis=y, tooltip=t)`. -/
def Chart.addDataSet (H : Chart) (d : List (List Cell)) (stype name : String)
    (color : Option String) (yax : Nat) (tooltip : Option J) : Chart :=
  { H with series := H.series ++ [⟨d, stype, name, color, yax, tooltip⟩] }

/-- Model of `H.set_dict_options(options)`. -/
def Chart.setDictOptions (H : Chart) (o : J) : Chart := { H with options := o }

/-- Modelled from the spec: the external charting collaborator serialises each
timestamp x-value to "a single numeric epoch representation (milliseconds) for
wire compatibility".  The source hands pandas timestamps straight to
`add_data_set`; the integer-millisecond encoding on the wire belongs to
the collaborator, so only timestamp cells have one.  Conversion from epoch
nanoseconds to epoch milliseconds is the floor division also used explicitly by
the source itself in `asm8.astype("datetime64[ms]").astype("int64")`. -/
def Cell.wireMs : Cell → Option Int
  | Cell.time t => some (Int.fdiv t 1000000)
  | Cell.num _ => none

/-- The `DefaultRange` enumeration (module lines 14-20), stored ordinally. -/
inductive DefaultRange where
  | one_month | three_month | six_month | ytd | year | all_range
deriving DecidableEq, Repr

/-- Ordinal value of a `DefaultRange`, as `int(range_sel)` produces it. -/
def DefaultRange.toInt : DefaultRange → Int
  | .one_month => 0
  | .three_month => 1
  | .six_month => 2
  | .ytd => 3
  | .year => 4
  | .all_range => 5

/-- The `_CommonOptions.axisFormatDateTime` dictionary (lines 24-40). -/
def axisFormatDateTime : J :=
  J.obj [
    ("type", J.str "datetime"),
    ("dateTimeLabelFormats", J.obj [
      ("millisecond", J.str "%H:%M:%S.%L"),
      ("second", J.str "%H:%M:%S"),
      ("minute", J.str "%H:%M"),
      ("hour", J.str "%H:%M"),
      ("day", J.str "%e. %b"),
      ("week", J.str "%e. %b"),
      ("month", J.str "%b \x27%y"),
      ("year", J.str "%Y")]),
    ("tickmarkPlacement", J.str "on"),
    ("title", J.obj [("enabled", J.bool false)])
  ]

/-- Piecewise-linear interpolation at fractional position `h` into a (sorted)
value list: the linear-interpolation quantile kernel of pandas/numpy.  With
`i = ⌊h⌋` the result is `ys[i] + (h - i) * (ys[i+1] - ys[i])`, the upper
neighbour falling back to `ys[i]` at the top end. -/
def interpAt (ys : List Rat) (h : Rat) : Rat :=
  let i : Nat := (⌊h⌋).toNat
  let a := ys.getD i 0
  let b := ys.getD (i + 1) a
  a + (h - (i : Rat)) * (b - a)

/-- Quantile of an already sorted list at probability `p`
(linear interpolation, the pandas default). -/
def quantileSorted (ys : List Rat) (p : Rat) : Rat :=
  interpAt ys (p * ((ys.length : Rat) - 1))

/-- Model of `Series.quantile(p)` with the default linear interpolation: sort the
values, then interpolate. -/
def quantile (xs : List Rat) (p : Rat) : Rat :=
  quantileSorted (List.insertionSort (· ≤ ·) xs) p

/-- Arithmetic mean of a list of rationals, the model of `Series.mean()`
(0 on the empty list, where pandas yields NaN; the claims assume data). -/
def ratMean (xs : List Rat) : Rat := xs.sum / (xs.length : Rat)

/-- Round to the nearest integer, ties to even: the rounding used by the Python
built-in `round` (idealised over exact rationals). -/
def roundHalfEven (q : Rat) : Int :=
  let f := ⌊q⌋
  let r := q - (f : Rat)
  if r < 1/2 then f
  else if 1/2 < r then f + 1
  else if f % 2 = 0 then f else f + 1

/-- Model of the Python call `round(q, nd)`. -/
def pyRound (q : Rat) (nd : Nat) : Rat :=
  (roundHalfEven (q * (10 : Rat) ^ nd) : Rat) / (10 : Rat) ^ nd

/-- The ten-colour default palette written inline in `area_stacked` and
`area_pct_total` (before the `* 10` repetition). -/
def palette10 : List String :=
  ["#7cb5ec", "#434348", "#90ed7d", "#f7a35c", "#8085e9",
   "#f15c80", "#e4d354", "#2b908f", "#f45b5b", "#91e8e1"]

/-- The `default_colors` list: the palette repeated ten times (`[...] * 10`), a list of
exactly 100 colours. -/
def defaultColors : List String := (List.replicate 10 palette10).flatten

/-- A colour-normalisation callable, the model of the `norm` parameter: applied
to `vmin`, `vmax` and a value it yields a position in the gradient. -/
def NormF : Type := Rat → Rat → Rat → Rat

/-- Model of `matplotlib.colors.Normalize(vmin, vmax)(x)`. -/
def Normalize : NormF := fun vmin vmax x => (x - vmin) / (vmax - vmin)

/-- Modelled from the spec: the external colormap collaborator
(`plt.cm.get_cmap` composed with `matplotlib.colors.rgb2hex`), which "supplies
... color normalization and colormap-to-hex conversion".  Any fixed function
represents it; the claims rely only on it being a deterministic function of the
colormap name and the normalised position. -/
def cmapHex (name : String) (x : Rat) : String :=
  "cmap(" ++ name ++ ")@" ++ toString x

/-- Colour chosen for series index `i` in the stacked-area builders:
`default_colors[i]` (an `IndexError` past the end) when no colormap is given,
otherwise the colormap looked up at the normalised index. -/
def areaColor (n : Nat) (norm : Option NormF) (cmap : Option String) (i : Nat) :
    Except String String :=
  match cmap with
  | none =>
      match defaultColors.get? i with
      | some c => Except.ok c
      | none => Except.error "list index out of range"
  | some cm => Except.ok (cmapHex cm ((norm.getD Normalize) 0 (n : Rat) (i : Rat)))

/-- The series loop shared by `line_chart`, `line_customline`, `line_pct_change`
and (twice) `line_secondary_y`:
`for name in groups_name: H.add_data_set(data.loc[:, (date_field, name)].values.tolist(), line, name)`. -/
def lineLoop (data : DataFrame) (stype : String) (yax : Nat) :
    List String → Chart → Chart
  | [], H => H
  | name :: rest, H =>
      lineLoop data stype yax rest
        (H.addDataSet (data.locList ["date_field", name]) stype name none yax none)

/-- The series loop shared by `area_stacked` and `area_pct_total`:
`for i, name in enumerate(groups_name): ... H.add_data_set(..., area, name, color=color)`,
with the `IndexError` of `default_colors[i]` propagated. -/
def areaLoop (data : DataFrame) (n : Nat) (norm : Option NormF) (cmap : Option String) :
    List (Nat × String) → Chart → Except String Chart
  | [], H => Except.ok H
  | (i, name) :: rest, H =>
      match areaColor n norm cmap i with
      | Except.error e => Except.error e
      | Except.ok color =>
          areaLoop data n norm cmap rest
            (H.addDataSet (data.locList ["date_field", name]) "area" name (some color) 0 none)

/-- Prepared frame shared by every line/area builder (`data[date_field] =
data.index; data = data.reset_index(drop=True)`). -/
def prepLine (df : DataFrame) : DataFrame :=
  (df.setColumn "date_field" (df.index.map Cell.time)).resetIndexDrop

/-- Options dict of `line_chart` (lines 78-107). -/
def line_chart_options (y_name title : String) (range_sel num_decimals : Int)
    (legend : Bool) : J :=
  J.obj [
    ("legend", J.obj [("enabled", J.bool legend)]),
    ("rangeSelector", J.obj [("selected", J.int range_sel)]),
    ("title", J.obj [("text", J.str title), ("style", J.obj [("fontSize", J.str "21px")])]),
    ("yAxis", J.obj [("title", J.obj [("text", J.str y_name),
                                      ("style", J.obj [("fontSize", J.str "14px")])])]),
    ("tooltip", J.obj [("valueDecimals", J.int num_decimals),
                       ("xDateFormat", J.str "%A, %b %d, %Y"),
                       ("shared", J.bool true)])
  ]

/-- Series loop and option assembly of `line_chart` (lines 66, 74-111), as a
function of the prepared frame and the captured column list. -/
def line_chart_core (data : DataFrame) (groups_name : List String)
    (y_name title : String) (range_sel num_decimals : Int) (legend : Bool)
    (figsize_x figsize_y : Int) : Chart :=
  let H := Highstock figsize_x figsize_y
  let H := lineLoop data "line" 0 groups_name H
  H.setDictOptions (line_chart_options y_name title range_sel num_decimals legend)

/-- Model of `line_chart` (lines 43-111). -/
def line_chart (df : DataFrame) (y_name title : String)
    (range_sel num_decimals : Int) (legend : Bool) (figsize_x figsize_y : Int) : Chart :=
  let data := df.copy
  let groups_name := data.cols.map Prod.fst
  let data := data.setColumn "date_field" (data.index.map Cell.time)
  let data := data.resetIndexDrop
  line_chart_core data groups_name y_name title range_sel num_decimals legend figsize_x figsize_y

/-- The y-axis `labels.formatter` string of the stacked-area builders.  The
Python literal is spread over backslash-continued lines, so the embedded
indentation is part of the string. -/
def areaLabelsFormatter : String :=
  "function () \x7b                                    return this.value ;                                \x7d"

/-- The y-axis `labels.formatter` string of `line_pct_change` (signed percent
with explicit plus), again with the continuation-line indentation embedded. -/
def pctChangeFormatter : String :=
  "function () \x7b                                return (this.value > 0 ? \x27 + \x27 : \x27\x27) + this.value + \x27%\x27;                            \x7d"

/-- The tooltip `pointFormat` of `area_pct_total`. -/
def pctTotalPointFormat : String :=
  "<span style=\"color:\x7bseries.color\x7d\">\x7bseries.name\x7d</span>: <b>\x7bpoint.y\x7d</b> (\x7bpoint.percentage:.2f\x7d%)<br/>"

/-- The tooltip `pointFormat` of `line_pct_change`. -/
def pctChangePointFormat : String :=
  "<span style=\"color:\x7bseries.color\x7d\">\x7bseries.name\x7d</span>: <b>\x7bpoint.y\x7d</b> (\x7bpoint.change\x7d%)<br/>"

/-- Options dict of `line_customline` (lines 155-194).  The `plotline_date`
argument of the builder is a caller-supplied date string parsed by
`pd.Timestamp`; the parsing belongs to the external library, so the parameter here
stands for the epoch-nanosecond value of the parsed timestamp, and
`.asm8.astype("datetime64[ms]").astype("int64")` is floor division by 10^6. -/
def line_customline_options (y_name title : String) (range_sel num_decimals : Int)
    (line_text : String) (legend : Bool) (plotline_date : Int) : J :=
  J.obj [
    ("legend", J.obj [("enabled", J.bool legend)]),
    ("rangeSelector", J.obj [("selected", J.int range_sel)]),
    ("title", J.obj [("text", J.str title), ("style", J.obj [("fontSize", J.str "21px")])]),
    ("xAxis", J.obj [("plotLines", J.arr [J.obj [
        ("value", J.int (Int.fdiv plotline_date 1000000)),
        ("color", J.str "black"),
        ("width", J.int 2),
        ("zIndex", J.int 4),
        ("label", J.obj [("text", J.str line_text)])]])]),
    ("yAxis", J.obj [("title", J.obj [("text", J.str y_name),
                                      ("style", J.obj [("fontSize", J.str "14px")])])]),
    ("tooltip", J.obj [("valueDecimals", J.int num_decimals),
                       ("xDateFormat", J.str "%A, %b %d, %Y"),
                       ("shared", J.bool true)])
  ]

/-- Series loop and option assembly of `line_customline` (lines 143, 151-198). -/
def line_customline_core (data : DataFrame) (groups_name : List String)
    (plotline_date : Int) (y_name title : String) (range_sel num_decimals : Int)
    (line_text : String) (legend : Bool) (figsize_x figsize_y : Int) : Chart :=
  let H := Highstock figsize_x figsize_y
  let H := lineLoop data "line" 0 groups_name H
  H.setDictOptions
    (line_customline_options y_name title range_sel num_decimals line_text legend plotline_date)

/-- Model of `line_customline` (lines 114-198). -/
def line_customline (df : DataFrame) (plotline_date : Int) (y_name title : String)
    (range_sel num_decimals : Int) (line_text : String) (legend : Bool)
    (figsize_x figsize_y : Int) : Chart :=
  let data := df.copy
  let groups_name := data.cols.map Prod.fst
  let data := data.setColumn "date_field" (data.index.map Cell.time)
  let data := data.resetIndexDrop
  line_customline_core data groups_name plotline_date y_name title range_sel num_decimals
    line_text legend figsize_x figsize_y

/-- Options dict of `area_stacked` (lines 253-295). -/
def area_stacked_options (y_name title : String) (range_sel num_decimals : Int)
    (legend : Bool) : J :=
  J.obj [
    ("legend", J.obj [("enabled", J.bool legend)]),
    ("rangeSelector", J.obj [("selected", J.int range_sel)]),
    ("title", J.obj [("text", J.str title), ("style", J.obj [("fontSize", J.str "20px")])]),
    ("xAxis", axisFormatDateTime),
    ("yAxis", J.obj [
      ("title", J.obj [("text", J.str y_name), ("style", J.obj [("fontSize", J.str "13px")])]),
      ("labels", J.obj [("formatter", J.str areaLabelsFormatter)])]),
    ("tooltip", J.obj [("shared", J.bool true),
                       ("xDateFormat", J.str "%A, %b %d, %Y"),
                       ("valueDecimals", J.int num_decimals)]),
    ("plotOptions", J.obj [("area", J.obj [
      ("stacking", J.str "normal"),
      ("connectNulls", J.bool true),
      ("lineWidth", J.int 1),
      ("marker", J.obj [("lineWidth", J.int 1)])])])
  ]

/-- Options dict of `area_pct_total` (lines 355-397). -/
def area_pct_total_options (y_name title : String) (range_sel num_decimals : Int)
    (legend : Bool) : J :=
  J.obj [
    ("legend", J.obj [("enabled", J.bool legend)]),
    ("rangeSelector", J.obj [("selected", J.int range_sel)]),
    ("title", J.obj [("text", J.str title), ("style", J.obj [("fontSize", J.str "20px")])]),
    ("xAxis", axisFormatDateTime),
    ("yAxis", J.obj [
      ("title", J.obj [("text", J.str ("Percent of " ++ y_name)),
                       ("style", J.obj [("fontSize", J.str "13px")])]),
      ("labels", J.obj [("formatter", J.str areaLabelsFormatter)])]),
    ("tooltip", J.obj [("shared", J.bool true),
                       ("pointFormat", J.str pctTotalPointFormat),
                       ("valueDecimals", J.int num_decimals)]),
    ("plotOptions", J.obj [("area", J.obj [
      ("stacking", J.str "percent"),
      ("connectNulls", J.bool true),
      ("lineWidth", J.int 1),
      ("marker", J.obj [("lineWidth", J.int 1)])])])
  ]

/-- Series loop and option assembly of `area_stacked` (lines 229, 237-299). -/
def area_stacked_core (data : DataFrame) (groups_name : List String)
    (y_name title : String) (range_sel num_decimals : Int) (legend : Bool)
    (norm : Option NormF) (cmap : Option String) (figsize_x figsize_y : Int) :
    Except String Chart :=
  let H := Highstock figsize_x figsize_y
  match areaLoop data groups_name.length norm cmap groups_name.enum H with
  | Except.error e => Except.error e
  | Except.ok H =>
      Except.ok (H.setDictOptions
        (area_stacked_options y_name title range_sel num_decimals legend))

/-- Model of `area_stacked` (lines 201-299). -/
def area_stackedE (df : DataFrame) (y_name title : String)
    (range_sel num_decimals : Int) (legend : Bool)
    (norm : Option NormF) (cmap : Option String) (figsize_x figsize_y : Int) :
    Except String Chart :=
  let data := df.copy
  let groups_name := data.cols.map Prod.fst
  let data := data.setColumn "date_field" (data.index.map Cell.time)
  let data := data.resetIndexDrop
  area_stacked_core data groups_name y_name title range_sel num_decimals legend
    norm cmap figsize_x figsize_y

/-- Series loop and option assembly of `area_pct_total` (lines 330, 339-401). -/
def area_pct_total_core (data : DataFrame) (groups_name : List String)
    (y_name title : String) (range_sel num_decimals : Int) (legend : Bool)
    (norm : Option NormF) (cmap : Option String) (figsize_x figsize_y : Int) :
    Except String Chart :=
  let H := Highstock figsize_x figsize_y
  match areaLoop data groups_name.length norm cmap groups_name.enum H with
  | Except.error e => Except.error e
  | Except.ok H =>
      Except.ok (H.setDictOptions
        (area_pct_total_options y_name title range_sel num_decimals legend))

/-- Model of `area_pct_total` (lines 302-401); here the column list is read off
before the copy, which holds the same data. -/
def area_pct_totalE (df : DataFrame) (y_name title : String)
    (range_sel num_decimals : Int) (legend : Bool)
    (norm : Option NormF) (cmap : Option String) (figsize_x figsize_y : Int) :
    Except String Chart :=
  let groups_name := df.cols.map Prod.fst
  let data := df.copy
  let data := data.setColumn "date_field" (data.index.map Cell.time)
  let data := data.resetIndexDrop
  area_pct_total_core data groups_name y_name title range_sel num_decimals legend
    norm cmap figsize_x figsize_y

/-- Options dict of `line_secondary_y` (lines 452-489). -/
def line_secondary_y_options (secondy_axis_name y_name title : String)
    (range_sel num_decimals : Int) : J :=
  J.obj [
    ("legend", J.obj [("enabled", J.bool true)]),
    ("rangeSelector", J.obj [("selected", J.int range_sel)]),
    ("title", J.obj [("text", J.str title), ("style", J.obj [("fontSize", J.str "23px")])]),
    ("yAxis", J.arr [
      J.obj [("title", J.obj [("text", J.str y_name),
                              ("style", J.obj [("fontSize", J.str "14px")])])],
      J.obj [("title", J.obj [("text", J.str secondy_axis_name),
                              ("style", J.obj [("fontSize", J.str "14px")])]),
             ("opposite", J.bool false)]]),
    ("tooltip", J.obj [("valueDecimals", J.int num_decimals),
                       ("xDateFormat", J.str "%A, %b %d, %Y"),
                       ("shared", J.bool true)])
  ]

/-- Series loops and option assembly of `line_secondary_y` (lines 430, 444-493):
series of the first frame take the default axis 0, series of the second frame are
attached with `yAxis=1`. -/
def line_secondary_y_core (data data2 : DataFrame) (groups_name groups_name2 : List String)
    (secondy_axis_name y_name title : String) (range_sel num_decimals : Int)
    (figsize_x figsize_y : Int) : Chart :=
  let H := Highstock figsize_x figsize_y
  let H := lineLoop data "line" 0 groups_name H
  let H := lineLoop data2 "line" 1 groups_name2 H
  H.setDictOptions
    (line_secondary_y_options secondy_axis_name y_name title range_sel num_decimals)

/-- Model of `line_secondary_y` (lines 404-493).  Note the second frame is
prepared with `reset_index()` without `drop`. -/
def line_secondary_y (df df2 : DataFrame) (secondy_axis_name y_name title : String)
    (range_sel num_decimals : Int) (figsize_x figsize_y : Int) : Chart :=
  let data := df.copy
  let data2 := df2.copy
  let groups_name := data.cols.map Prod.fst
  let groups_name2 := data2.cols.map Prod.fst
  let data := data.setColumn "date_field" (data.index.map Cell.time)
  let data := data.resetIndexDrop
  let data2 := data2.setColumn "date_field" (data2.index.map Cell.time)
  let data2 := data2.resetIndex
  line_secondary_y_core data data2 groups_name groups_name2 secondy_axis_name y_name title
    range_sel num_decimals figsize_x figsize_y

/-- The `tooltip` keyword passed to `add_data_set` by `boxplot`. -/
def boxplotTooltip : J :=
  J.obj [("headerFormat", J.str "<em>Date \x7bpoint.key\x7d</em><br/>")]

/-- Options dict of `boxplot` (lines 538-581).  The mean plotline label is
`Mean: %s` followed by two blanks, interpolated with the mean; the
Python string rendering of the number is modelled
by `toString` on the exact rational. -/
def boxplot_options (y_name title x_name : String) (num_decimals : Nat) (mean : Rat) : J :=
  J.obj [
    ("chart", J.obj [("type", J.str "boxplot")]),
    ("title", J.obj [("text", J.str title)]),
    ("legend", J.obj [("enabled", J.bool false)]),
    ("xAxis", jassoc axisFormatDateTime "title" (J.obj [("text", J.str x_name)])),
    ("yAxis", J.obj [
      ("title", J.obj [("text", J.str y_name)]),
      ("plotLines", J.arr [J.obj [
        ("value", J.rat mean),
        ("color", J.str "red"),
        ("width", J.int 1),
        ("zIndex", J.int 4),
        ("label", J.obj [
          ("text", J.str ("Mean: " ++ toString mean ++ "  ")),
          ("align", J.str "right"),
          ("style", J.obj [
            ("color", J.str "gray"),
            ("plotOptions", J.obj [("series", J.obj [("dataLabels", J.obj [
              ("enabled", J.bool true),
              ("crop", J.bool false),
              ("overflow", J.str "none")])])])])])]])]),
    ("tooltip", J.obj [("valueDecimals", J.int num_decimals),
                       ("xDateFormat", J.str "%A, %b %d, %Y"),
                       ("shared", J.bool true)])
  ]

/-- The rows of the renamed two-column frame after
`data = data.sort_values(column_1)`: sorted by the value cell. -/
def sortedRows (c0 c1 : List Cell) : List (Cell × Cell) :=
  List.insertionSort rowLe (c0.zip c1)

/-- The value list of one `groupby(date_field)` group: the rows of the sorted
frame carrying key `k`, in frame order. -/
def boxGroup (c0 c1 : List Cell) (k : Cell) : List Rat :=
  ((sortedRows c0 c1).filter (fun r => r.1 = k)).map (fun r => cellVal r.2)

/-- The group keys emitted by `groupby(date_field)` with its default
`sort=True`: the distinct keys in key order. -/
def boxKeys (c0 c1 : List Cell) : List Cell :=
  List.insertionSort cellLe (((sortedRows c0 c1).map Prod.fst).dedup)

/-- One row of `data_box_list`: the key followed by the five quantiles of its
group (`for i in range(0, 125, 25): ... quantile(i / 100.0)`). -/
def boxRow (g : List Rat) (k : Cell) : List Cell :=
  [k, Cell.num (quantile g 0), Cell.num (quantile g (1/4)), Cell.num (quantile g (1/2)),
   Cell.num (quantile g (3/4)), Cell.num (quantile g 1)]

/-- The `data_box_list` value: one quantile row per group. -/
def boxRows (c0 c1 : List Cell) : List (List Cell) :=
  (boxKeys c0 c1).map (fun k => boxRow (boxGroup c0 c1 k) k)

/-- The statistic `mean = round(data.column_1.mean(), num_decimals)`, computed on the sorted
frame. -/
def boxMean (c0 c1 : List Cell) (nd : Nat) : Rat :=
  pyRound (ratMean ((sortedRows c0 c1).map (fun r => cellVal r.2))) nd

/-- Statistics, series attachment and option assembly of `boxplot`
(lines 517, 522-585) on the positionally renamed two-column frame, given as the
`date_field` and `column_1` value lists.  The intermediate
`groupby(...).count()` frame only scaffolds the quantile columns and is dropped
by the final column selection, so it is not modelled. -/
def boxplot_core (c0 c1 : List Cell) (y_name title : String) (num_decimals : Nat)
    (x_name : String) (figsize_x figsize_y : Int) : Chart :=
  let H := Highchart figsize_x figsize_y
  let H := H.addDataSet (boxRows c0 c1) "boxplot" y_name none 0 (some boxplotTooltip)
  H.setDictOptions (boxplot_options y_name title x_name num_decimals
    (boxMean c0 c1 num_decimals))

/-- Model of `boxplot` (lines 496-585).  The positional rename
`data.columns = [date_field, column_1]` raises the pandas length-mismatch
`ValueError` unless the frame has exactly two columns; nothing is attached to
the chart before that point. -/
def boxplotE (df : DataFrame) (y_name title : String) (num_decimals : Nat)
    (x_name : String) (figsize_x figsize_y : Int) : Except String Chart :=
  let data := df.copy
  match data.cols with
  | [c0, c1] =>
      Except.ok (boxplot_core c0.2 c1.2 y_name title num_decimals x_name figsize_x figsize_y)
  | _ =>
      Except.error ("Length mismatch: Expected axis has " ++ toString data.cols.length ++
        " elements, new values have 2 elements")

/-- Options dict of `line_pct_change` (lines 625-661). -/
def line_pct_change_options (y_name title : String) (range_sel num_decimals : Int)
    (legend : Bool) : J :=
  J.obj [
    ("legend", J.obj [("enabled", J.bool legend)]),
    ("rangeSelector", J.obj [("selected", J.int range_sel)]),
    ("title", J.obj [("text", J.str title)]),
    ("yAxis", J.obj [
      ("title", J.obj [("text", J.str y_name)]),
      ("labels", J.obj [("formatter", J.str pctChangeFormatter)]),
      ("plotLines", J.arr [J.obj [("value", J.int 0), ("width", J.int 2),
                                  ("color", J.str "silver")]])]),
    ("plotOptions", J.obj [("series", J.obj [("compare", J.str "percent")])]),
    ("tooltip", J.obj [("pointFormat", J.str pctChangePointFormat),
                       ("valueDecimals", J.int num_decimals)])
  ]

/-- Series loop and option assembly of `line_pct_change` (lines 613, 621-665). -/
def line_pct_change_core (data : DataFrame) (groups_name : List String)
    (y_name title : String) (range_sel num_decimals : Int) (legend : Bool)
    (figsize_x figsize_y : Int) : Chart :=
  let H := Highstock figsize_x figsize_y
  let H := lineLoop data "line" 0 groups_name H
  H.setDictOptions (line_pct_change_options y_name title range_sel num_decimals legend)

/-- Model of `line_pct_change` (lines 588-665). -/
def line_pct_change (df : DataFrame) (y_name title : String)
    (range_sel num_decimals : Int) (legend : Bool) (figsize_x figsize_y : Int) : Chart :=
  let data := df.copy
  let groups_name := data.cols.map Prod.fst
  let data := data.setColumn "date_field" (data.index.map Cell.time)
  let data := data.resetIndexDrop
  line_pct_change_core data groups_name y_name title range_sel num_decimals legend
    figsize_x figsize_y

/-- An object store: the heap of dataframe objects live during one builder call.
A reference is an index into the store; `df.copy()` allocates a fresh cell at
the end, and in-place operations (`data[col] = ...`, `data.columns = ...`)
write to the referenced cell.  This embedding decides the mutation claims. -/
abbrev Store := List DataFrame

/-- Dereference a store cell (an empty frame stands for a dangling reference,
never exercised under the well-formedness hypotheses of the theorems). -/
def storeGet (st : Store) (r : Nat) : DataFrame := st.getD r ⟨[], []⟩

/-- Store-based model of `line_chart`: `data = data.copy()` allocates `r1`;
`data[date_field] = data.index` mutates the cell at `r1`;
`data = data.reset_index(drop=True)` allocates a fresh frame and rebinds. -/
def line_chart_heap (st0 : Store) (r : Nat) (y_name title : String)
    (range_sel num_decimals : Int) (legend : Bool) (figsize_x figsize_y : Int) :
    Store × Chart :=
  let r1 := st0.length
  let st1 := st0 ++ [storeGet st0 r]
  let groups_name := (storeGet st1 r1).cols.map Prod.fst
  let st2 := st1.set r1
    ((storeGet st1 r1).setColumn "date_field" ((storeGet st1 r1).index.map Cell.time))
  let r2 := st2.length
  let st3 := st2 ++ [(storeGet st2 r1).resetIndexDrop]
  (st3, line_chart_core (storeGet st3 r2) groups_name y_name title range_sel
    num_decimals legend figsize_x figsize_y)

/-- Store-based model of `line_customline` (same frame discipline as
`line_chart`). -/
def line_customline_heap (st0 : Store) (r : Nat) (plotline_date : Int)
    (y_name title : String) (range_sel num_decimals : Int) (line_text : String)
    (legend : Bool) (figsize_x figsize_y : Int) : Store × Chart :=
  let r1 := st0.length
  let st1 := st0 ++ [storeGet st0 r]
  let groups_name := (storeGet st1 r1).cols.map Prod.fst
  let st2 := st1.set r1
    ((storeGet st1 r1).setColumn "date_field" ((storeGet st1 r1).index.map Cell.time))
  let r2 := st2.length
  let st3 := st2 ++ [(storeGet st2 r1).resetIndexDrop]
  (st3, line_customline_core (storeGet st3 r2) groups_name plotline_date y_name title
    range_sel num_decimals line_text legend figsize_x figsize_y)

/-- Store-based model of `area_stacked`. -/
def area_stacked_heap (st0 : Store) (r : Nat) (y_name title : String)
    (range_sel num_decimals : Int) (legend : Bool) (norm : Option NormF)
    (cmap : Option String) (figsize_x figsize_y : Int) :
    Store × Except String Chart :=
  let r1 := st0.length
  let st1 := st0 ++ [storeGet st0 r]
  let groups_name := (storeGet st1 r1).cols.map Prod.fst
  let st2 := st1.set r1
    ((storeGet st1 r1).setColumn "date_field" ((storeGet st1 r1).index.map Cell.time))
  let r2 := st2.length
  let st3 := st2 ++ [(storeGet st2 r1).resetIndexDrop]
  (st3, area_stacked_core (storeGet st3 r2) groups_name y_name title range_sel
    num_decimals legend norm cmap figsize_x figsize_y)

/-- Store-based model of `area_pct_total` (column list read from the caller
frame before the copy). -/
def area_pct_total_heap (st0 : Store) (r : Nat) (y_name title : String)
    (range_sel num_decimals : Int) (legend : Bool) (norm : Option NormF)
    (cmap : Option String) (figsize_x figsize_y : Int) :
    Store × Except String Chart :=
  let groups_name := (storeGet st0 r).cols.map Prod.fst
  let r1 := st0.length
  let st1 := st0 ++ [storeGet st0 r]
  let st2 := st1.set r1
    ((storeGet st1 r1).setColumn "date_field" ((storeGet st1 r1).index.map Cell.time))
  let r2 := st2.length
  let st3 := st2 ++ [(storeGet st2 r1).resetIndexDrop]
  (st3, area_pct_total_core (storeGet st3 r2) groups_name y_name title range_sel
    num_decimals legend norm cmap figsize_x figsize_y)

/-- Store-based model of `line_secondary_y`: both caller frames are copied
before any mutation. -/
def line_secondary_y_heap (st0 : Store) (r rB : Nat)
    (secondy_axis_name y_name title : String) (range_sel num_decimals : Int)
    (figsize_x figsize_y : Int) : Store × Chart :=
  let r1 := st0.length
  let st1 := st0 ++ [storeGet st0 r]
  let r2 := st1.length
  let st2 := st1 ++ [storeGet st1 rB]
  let groups_name := (storeGet st2 r1).cols.map Prod.fst
  let groups_name2 := (storeGet st2 r2).cols.map Prod.fst
  let st3 := st2.set r1
    ((storeGet st2 r1).setColumn "date_field" ((storeGet st2 r1).index.map Cell.time))
  let r3 := st3.length
  let st4 := st3 ++ [(storeGet st3 r1).resetIndexDrop]
  let st5 := st4.set r2
    ((storeGet st4 r2).setColumn "date_field" ((storeGet st4 r2).index.map Cell.time))
  let r4 := st5.length
  let st6 := st5 ++ [(storeGet st5 r2).resetIndex]
  (st6, line_secondary_y_core (storeGet st6 r3) (storeGet st6 r4) groups_name groups_name2
    secondy_axis_name y_name title range_sel num_decimals figsize_x figsize_y)

/-- Store-based model of `boxplot`: the copy is allocated, then
`data.columns = [date_field, column_1]` either mutates the copy or raises;
`sort_values` and the groupby products are fresh frames, modelled as values in
`boxplot_core`. -/
def boxplot_heap (st0 : Store) (r : Nat) (y_name title : String)
    (num_decimals : Nat) (x_name : String) (figsize_x figsize_y : Int) :
    Store × Except String Chart :=
  let r1 := st0.length
  let st1 := st0 ++ [storeGet st0 r]
  match (storeGet st1 r1).cols with
  | [c0, c1] =>
      let st2 := st1.set r1 ⟨(storeGet st1 r1).index, [("date_field", c0.2), ("column_1", c1.2)]⟩
      (st2, Except.ok (boxplot_core c0.2 c1.2 y_name title num_decimals x_name
        figsize_x figsize_y))
  | _ =>
      (st1, Except.error ("Length mismatch: Expected axis has " ++
        toString (storeGet st1 r1).cols.length ++ " elements, new values have 2 elements"))

/-- Store-based model of `line_pct_change`. -/
def line_pct_change_heap (st0 : Store) (r : Nat) (y_name title : String)
    (range_sel num_decimals : Int) (legend : Bool) (figsize_x figsize_y : Int) :
    Store × Chart :=
  let r1 := st0.length
  let st1 := st0 ++ [storeGet st0 r]
  let groups_name := (storeGet st1 r1).cols.map Prod.fst
  let st2 := st1.set r1
    ((storeGet st1 r1).setColumn "date_field" ((storeGet st1 r1).index.map Cell.time))
  let r2 := st2.length
  let st3 := st2 ++ [(storeGet st2 r1).resetIndexDrop]
  (st3, line_pct_change_core (storeGet st3 r2) groups_name y_name title range_sel
    num_decimals legend figsize_x figsize_y)

/-- The group of key `k` read off the original (pre-sort) two-column input:
the value cells of the rows carrying that key. -/
def groupValues (v0 v1 : List Cell) (k : Cell) : List Rat :=
  ((v0.zip v1).filter (fun r => r.1 = k)).map (fun r => cellVal r.2)

/-- The `[timestamp, value]` pair rows the spec expects for one column. -/
def linePairs (idx : List Int) (v : List Cell) : List (List Cell) :=
  List.zipWith (fun ts x => [Cell.time ts, x]) idx v

/-- Name and attached data of each data set of a chart, in order. -/
def seriesNameData (H : Chart) : List (String × List (List Cell)) :=
  H.series.map (fun s => (s.name, s.data))

/-- First element of a JSON array. -/
def J.firstElem : J → Option J
  | J.arr l => l.head?
  | _ => none

/-- Concrete two-column, two-row frame used by the witnesses. -/
def dfW : DataFrame :=
  ⟨[1000000, 2000000],
   [("A", [Cell.num 3, Cell.num 4]), ("B", [Cell.num 5, Cell.num 6])]⟩

/-- Concrete frame whose only column is itself named `date_field`. -/
def dfDF : DataFrame := ⟨[0], [("date_field", [Cell.num 5])]⟩

/-- Concrete one-column frame. -/
def dfA : DataFrame := ⟨[0], [("a", [Cell.num 1])]⟩

/-- Concrete frame with 101 distinctly named columns. -/
def df101 : DataFrame :=
  ⟨[0], (List.range 101).map (fun k => (toString k, [Cell.num 0]))⟩

/-- Concrete three-column frame. -/
def dfBad3 : DataFrame :=
  ⟨[0], [("a", [Cell.num 1]), ("b", [Cell.num 2]), ("c", [Cell.num 3])]⟩

/-- Concrete two-column frame for the boxplot witnesses: two groups of two
values each. -/
def dfBox : DataFrame :=
  ⟨[0, 1, 2, 3],
   [("d", [Cell.time 0, Cell.time 0, Cell.time 86400000000000, Cell.time 86400000000000]),
    ("v", [Cell.num 1, Cell.num 3, Cell.num 2, Cell.num 5])]⟩

/-- Reading a sorted list at two in-range positions, with any defaults, gives
non-decreasing values. -/
theorem sorted_getD_le (ys : List Rat) (hs : List.Sorted (· ≤ ·) ys) {i j : Nat}
    (hij : i ≤ j) (hj : j < ys.length) (d₁ d₂ : Rat) :
    ys.getD i d₁ ≤ ys.getD j d₂ := by
  have hi : i < ys.length := lt_of_le_of_lt (le_refl i) (lt_of_le_of_lt hij hj)
  rw [List.getD_eq_getElem?_getD, List.getD_eq_getElem?_getD,
    List.getElem?_eq_getElem hi, List.getElem?_eq_getElem hj]
  simp only [Option.getD_some]
  rcases eq_or_lt_of_le hij with rfl | hlt
  · exact le_refl _
  · have := List.pairwise_iff_get.mp hs ⟨i, hi⟩ ⟨j, hj⟩ hlt
    simpa using this

/-- The linear-interpolation kernel is monotone in the fractional position over
the index range of a sorted list. -/
theorem interpAt_mono (ys : List Rat) (hs : List.Sorted (· ≤ ·) ys) {h h' : Rat}
    (h0 : 0 ≤ h) (hhh : h ≤ h') (htop : h' ≤ (ys.length : Rat) - 1) :
    interpAt ys h ≤ interpAt ys h' := by
  have h0' : (0 : Rat) ≤ h' := le_trans h0 hhh
  rcases Nat.eq_zero_or_pos ys.length with hm | _hm
  · exfalso
    rw [hm] at htop
    push_cast at htop
    linarith
  have hfl : (0 : Int) ≤ ⌊h⌋ := Int.floor_nonneg.mpr h0
  have hfl' : (0 : Int) ≤ ⌊h'⌋ := Int.floor_nonneg.mpr h0'
  have hicast : ((⌊h⌋.toNat : Nat) : Rat) = ((⌊h⌋ : Int) : Rat) := by
    exact_mod_cast Int.toNat_of_nonneg hfl
  have hicast' : ((⌊h'⌋.toNat : Nat) : Rat) = ((⌊h'⌋ : Int) : Rat) := by
    exact_mod_cast Int.toNat_of_nonneg hfl'
  have hgle : ((⌊h⌋.toNat : Nat) : Rat) ≤ h := by
    rw [hicast]; exact Int.floor_le h
  have hglt : h < ((⌊h⌋.toNat : Nat) : Rat) + 1 := by
    rw [hicast]; exact Int.lt_floor_add_one h
  have hgle' : ((⌊h'⌋.toNat : Nat) : Rat) ≤ h' := by
    rw [hicast']; exact Int.floor_le h'
  have hii' : ⌊h⌋.toNat ≤ ⌊h'⌋.toNat := Int.toNat_le_toNat (Int.floor_le_floor hhh)
  have htopN : ⌊h'⌋.toNat + 1 ≤ ys.length := by
    have h1 : ((⌊h'⌋.toNat + 1 : Nat) : Rat) ≤ (ys.length : Rat) := by
      push_cast
      push_cast at hgle'
      linarith
    exact_mod_cast h1
  have hi'lt : ⌊h'⌋.toNat < ys.length := Nat.lt_of_succ_le htopN
  simp only [interpAt]
  have hab : ys.getD ⌊h⌋.toNat 0 ≤ ys.getD (⌊h⌋.toNat + 1) (ys.getD ⌊h⌋.toNat 0) := by
    rcases lt_or_le (⌊h⌋.toNat + 1) ys.length with hin | hout
    · exact sorted_getD_le ys hs (Nat.le_succ _) hin 0 _
    · rw [List.getD_eq_default ys _ hout]
  have ha'b' : ys.getD ⌊h'⌋.toNat 0 ≤ ys.getD (⌊h'⌋.toNat + 1) (ys.getD ⌊h'⌋.toNat 0) := by
    rcases lt_or_le (⌊h'⌋.toNat + 1) ys.length with hin | hout
    · exact sorted_getD_le ys hs (Nat.le_succ _) hin 0 _
    · rw [List.getD_eq_default ys _ hout]
  rcases Nat.eq_or_lt_of_le hii' with heq | hlt
  · rw [heq]
    rw [heq] at hgle hglt
    have hsub : h - ((⌊h'⌋.toNat : Nat) : Rat) ≤ h' - ((⌊h'⌋.toNat : Nat) : Rat) := by linarith
    have hbnn : (0 : Rat) ≤
        ys.getD (⌊h'⌋.toNat + 1) (ys.getD ⌊h'⌋.toNat 0) - ys.getD ⌊h'⌋.toNat 0 :=
      sub_nonneg.mpr ha'b'
    nlinarith [mul_le_mul_of_nonneg_right hsub hbnn]
  · have hi1le : ⌊h⌋.toNat + 1 ≤ ⌊h'⌋.toNat := hlt
    have hba' : ys.getD (⌊h⌋.toNat + 1) (ys.getD ⌊h⌋.toNat 0) ≤ ys.getD ⌊h'⌋.toNat 0 :=
      sorted_getD_le ys hs hi1le hi'lt _ 0
    have hstep1 : (h - ((⌊h⌋.toNat : Nat) : Rat)) *
        (ys.getD (⌊h⌋.toNat + 1) (ys.getD ⌊h⌋.toNat 0) - ys.getD ⌊h⌋.toNat 0) ≤
        ys.getD (⌊h⌋.toNat + 1) (ys.getD ⌊h⌋.toNat 0) - ys.getD ⌊h⌋.toNat 0 := by
      have hg1 : h - ((⌊h⌋.toNat : Nat) : Rat) ≤ 1 := by linarith
      exact mul_le_of_le_one_left (sub_nonneg.mpr hab) hg1
    have hstep3 : (0 : Rat) ≤ (h' - ((⌊h'⌋.toNat : Nat) : Rat)) *
        (ys.getD (⌊h'⌋.toNat + 1) (ys.getD ⌊h'⌋.toNat 0) - ys.getD ⌊h'⌋.toNat 0) :=
      mul_nonneg (by linarith) (sub_nonneg.mpr ha'b')
    linarith

/-- Quantiles of a sorted list are monotone in the probability. -/
theorem quantileSorted_mono (ys : List Rat) (hs : List.Sorted (· ≤ ·) ys) {p q : Rat}
    (hp : 0 ≤ p) (hpq : p ≤ q) (hq : q ≤ 1) :
    quantileSorted ys p ≤ quantileSorted ys q := by
  rcases Nat.eq_zero_or_pos ys.length with hm | hm
  · rw [List.length_eq_zero] at hm
    subst hm
    simp [quantileSorted, interpAt]
  · have hone : (1 : Rat) ≤ (ys.length : Rat) := by exact_mod_cast hm
    apply interpAt_mono ys hs
    · exact mul_nonneg hp (by linarith)
    · exact mul_le_mul_of_nonneg_right hpq (by linarith)
    · calc q * ((ys.length : Rat) - 1)
          ≤ 1 * ((ys.length : Rat) - 1) := mul_le_mul_of_nonneg_right hq (by linarith)
        _ = (ys.length : Rat) - 1 := one_mul _

/-- Quantiles (of unsorted data) are monotone in the probability. -/
theorem quantile_mono (xs : List Rat) {p q : Rat}
    (hp : 0 ≤ p) (hpq : p ≤ q) (hq : q ≤ 1) :
    quantile xs p ≤ quantile xs q :=
  quantileSorted_mono _ (List.sorted_insertionSort _ xs) hp hpq hq

/-- Quantiles depend only on the multiset of values. -/
theorem quantile_congr_perm {l l' : List Rat} (hp : l.Perm l') (p : Rat) :
    quantile l p = quantile l' p := by
  unfold quantile
  congr 1
  apply List.eq_of_perm_of_sorted (r := (· ≤ ·))
  · exact ((List.perm_insertionSort _ l).trans hp).trans (List.perm_insertionSort _ l').symm
  · exact List.sorted_insertionSort _ l
  · exact List.sorted_insertionSort _ l'

/-- The mean depends only on the multiset of values. -/
theorem ratMean_congr_perm {l l' : List Rat} (hp : l.Perm l') :
    ratMean l = ratMean l' := by
  unfold ratMean
  rw [hp.sum_eq, hp.length_eq]

/-- Closed form of the shared line-series loop: it appends one series per
column name, in order. -/
theorem lineLoop_series (data : DataFrame) (stype : String) (yax : Nat) :
    ∀ (names : List String) (H : Chart),
      lineLoop data stype yax names H =
        { H with series := H.series ++
            names.map (fun n =>
              ⟨data.locList ["date_field", n], stype, n, none, yax, none⟩) } := by
  intro names
  induction names with
  | nil => intro H; simp [lineLoop]
  | cons n rest ih =>
      intro H
      rw [lineLoop, ih]
      simp [Chart.addDataSet, List.append_assoc]

/-- Closed form of the stacked-area loop when every colour lookup succeeds. -/
theorem areaLoop_ok (data : DataFrame) (n : Nat) (norm : Option NormF)
    (cmap : Option String) (colorVal : Nat → String) :
    ∀ (l : List (Nat × String)) (H : Chart),
      (∀ p ∈ l, areaColor n norm cmap p.1 = Except.ok (colorVal p.1)) →
      areaLoop data n norm cmap l H =
        Except.ok { H with series := H.series ++
                      l.map (fun p =>
                        ⟨data.locList ["date_field", p.2], "area", p.2,
                         some (colorVal p.1), 0, none⟩) } := by
  intro l
  induction l with
  | nil =>
      intro H _
      simp [areaLoop]
  | cons p rest ih =>
      intro H hc
      obtain ⟨i, name⟩ := p
      have h1 := hc (i, name) (List.mem_cons_self _ _)
      rw [areaLoop, h1]
      dsimp only
      rw [ih _ (fun q hq => hc q (List.mem_cons_of_mem _ hq))]
      simp [Chart.addDataSet, List.append_assoc]

/-- Name/data projection of the stacked-area loop on any successful run. -/
theorem areaLoop_series_proj (data : DataFrame) (n : Nat) (norm : Option NormF)
    (cmap : Option String) :
    ∀ (l : List (Nat × String)) (H H' : Chart),
      areaLoop data n norm cmap l H = Except.ok H' →
      H'.series.map (fun s => (s.name, s.data)) =
        H.series.map (fun s => (s.name, s.data)) ++
          l.map (fun p => (p.2, data.locList ["date_field", p.2])) := by
  intro l
  induction l with
  | nil =>
      intro H H' hok
      simp [areaLoop] at hok
      subst hok
      simp
  | cons p rest ih =>
      intro H H' hok
      obtain ⟨i, name⟩ := p
      rw [areaLoop] at hok
      cases hcol : areaColor n norm cmap i with
      | error e => rw [hcol] at hok; cases hok
      | ok c =>
          rw [hcol] at hok
          have := ih _ _ hok
          simpa [Chart.addDataSet, List.append_assoc] using this

/-- Overwriting every `name`-labelled column turns the `name`-filtered sublist
into copies of the replacement. -/
theorem filter_map_replace_self (name : String) (v : List Cell) :
    ∀ cs : List (String × List Cell),
      (cs.map (fun c => if c.1 = name then (name, v) else c)).filter
          (fun c => c.1 = name) =
        List.replicate ((cs.filter (fun c => c.1 = name)).length) (name, v) := by
  intro cs
  induction cs with
  | nil => simp
  | cons c cs ih =>
      by_cases hc : c.1 = name
      · simp [hc, List.filter_cons, ih, List.replicate_succ]
      · simp [hc, List.filter_cons, ih]

/-- Overwriting the `name`-labelled columns leaves the columns of any other
label untouched. -/
theorem filter_map_replace_other (name m : String) (v : List Cell) (hne : m ≠ name) :
    ∀ cs : List (String × List Cell),
      (cs.map (fun c => if c.1 = name then (name, v) else c)).filter
          (fun c => c.1 = m) =
        cs.filter (fun c => c.1 = m) := by
  intro cs
  induction cs with
  | nil => simp
  | cons c cs ih =>
      simp only [List.map_cons, List.filter_cons]
      by_cases hc : c.1 = name
      · have hcm : ¬ (c.1 = m) := by rw [hc]; exact fun h => hne h.symm
        have hnm : ¬ (name = m) := fun h => hne h.symm
        rw [if_pos hc]
        simp [hcm, hnm, ih]
      · rw [if_neg hc]
        by_cases hm : c.1 = m
        · simp [hm, ih]
        · simp [hm, ih]

/-- After `data[name] = v`, the columns labelled `name` are one or more copies
of `v` (one per previous occurrence of the label, or a single appended one). -/
theorem colsMatching_setColumn_self (df : DataFrame) (name : String) (v : List Cell) :
    ∃ k : Nat, (df.setColumn name v).colsMatching name = List.replicate (k + 1) v := by
  unfold DataFrame.setColumn DataFrame.colsMatching
  cases hany : df.cols.any (fun c => c.1 = name) with
  | false =>
      refine ⟨0, ?_⟩
      have hnil : df.cols.filter (fun c => c.1 = name) = [] := by
        rw [List.filter_eq_nil_iff]
        intro c hc
        have := (List.any_eq_false.mp hany) c hc
        simpa using this
      simp [hany, List.filter_append, hnil, List.filter_cons]
  | true =>
      obtain ⟨c, hc, hcname⟩ := List.any_eq_true.mp hany
      have hmem : c ∈ df.cols.filter (fun x => x.1 = name) := List.mem_filter.mpr ⟨hc, hcname⟩
      obtain ⟨k, hk⟩ := Nat.exists_eq_succ_of_ne_zero
        (fun h0 => by
          rw [List.length_eq_zero] at h0
          rw [h0] at hmem
          cases hmem)
        (n := (df.cols.filter (fun x => x.1 = name)).length)
      refine ⟨k, ?_⟩
      simp [hany, filter_map_replace_self, hk, List.map_replicate]

/-- Among columns with pairwise distinct labels, at most one matches a label. -/
theorem length_filter_fst_le_one :
    ∀ (cs : List (String × List Cell)), (cs.map Prod.fst).Nodup → ∀ name : String,
      (cs.filter (fun c => c.1 = name)).length ≤ 1 := by
  intro cs
  induction cs with
  | nil => simp
  | cons c cs ih =>
      intro hnd name
      rw [List.map_cons, List.nodup_cons] at hnd
      rw [List.filter_cons]
      by_cases hc : c.1 = name
      · have hnil : cs.filter (fun x : String × List Cell => x.1 = name) = [] := by
          rw [List.filter_eq_nil_iff]
          intro x hx
          simp only [decide_eq_true_eq]
          intro he
          exact hnd.1 (by rw [hc.trans he.symm]; exact List.mem_map_of_mem Prod.fst hx)
        simp [hc, hnil]
      · simpa [hc] using ih hnd.2 name

/-- After `data[name] = v` on a frame whose `name`-labelled column is unique,
the matching columns are exactly `[v]`. -/
theorem colsMatching_setColumn_self_nodup (df : DataFrame) (name : String) (v : List Cell)
    (hnd : (df.cols.map Prod.fst).Nodup) :
    (df.setColumn name v).colsMatching name = [v] := by
  unfold DataFrame.setColumn DataFrame.colsMatching
  cases hany : df.cols.any (fun c => c.1 = name) with
  | false =>
      have hnil : df.cols.filter (fun c : String × List Cell => c.1 = name) = [] := by
        rw [List.filter_eq_nil_iff]
        intro c hc
        have := (List.any_eq_false.mp hany) c hc
        simpa using this
      simp [hany, List.filter_append, hnil, List.filter_cons]
  | true =>
      obtain ⟨c, hc, hcname⟩ := List.any_eq_true.mp hany
      have hmem : c ∈ df.cols.filter (fun x : String × List Cell => x.1 = name) :=
        List.mem_filter.mpr ⟨hc, hcname⟩
      have hle : (df.cols.filter (fun x : String × List Cell => x.1 = name)).length ≤ 1 :=
        length_filter_fst_le_one df.cols hnd name
      have hge : 1 ≤ (df.cols.filter (fun x : String × List Cell => x.1 = name)).length :=
        List.length_pos.mpr (List.ne_nil_of_mem hmem)
      have hone : (df.cols.filter (fun x : String × List Cell => x.1 = name)).length = 1 :=
        Nat.le_antisymm hle hge
      simp [hany, filter_map_replace_self, hone, List.map_replicate]

/-- After `data[name] = v`, columns of any other label are unchanged. -/
theorem colsMatching_setColumn_other (df : DataFrame) (name m : String) (v : List Cell)
    (hne : m ≠ name) :
    (df.setColumn name v).colsMatching m = df.colsMatching m := by
  unfold DataFrame.setColumn DataFrame.colsMatching
  have hnm : ¬ (name = m) := fun h => hne h.symm
  cases hany : df.cols.any (fun c => c.1 = name) with
  | false => simp [hany, List.filter_append, List.filter_cons, hnm]
  | true => simp [hany, filter_map_replace_other name m v hne]

/-- With pairwise distinct labels, filtering for the label of a member column
yields exactly that column. -/
theorem filter_fst_of_nodup (c : String × List Cell) :
    ∀ cs : List (String × List Cell), (cs.map Prod.fst).Nodup → c ∈ cs →
      cs.filter (fun x => x.1 = c.1) = [c] := by
  intro cs
  induction cs with
  | nil => intro _ h; cases h
  | cons d cs ih =>
      intro hnd hmem
      rw [List.map_cons, List.nodup_cons] at hnd
      rw [List.filter_cons]
      rcases List.mem_cons.mp hmem with rfl | hmem'
      · have hnil : cs.filter (fun x : String × List Cell => x.1 = c.1) = [] := by
          rw [List.filter_eq_nil_iff]
          intro x hx
          simp only [decide_eq_true_eq]
          intro he
          exact hnd.1 (by rw [← he]; exact List.mem_map_of_mem Prod.fst hx)
        simp [hnil]
      · have hdc : ¬ (d.1 = c.1) := fun he =>
          hnd.1 (by rw [he]; exact List.mem_map_of_mem Prod.fst hmem')
        simp [hdc, ih hnd.2 hmem']

/-- Column lookup on a frame with pairwise distinct labels. -/
theorem colsMatching_of_nodup (df : DataFrame) (hnd : (df.cols.map Prod.fst).Nodup)
    (c : String × List Cell) (hc : c ∈ df.cols) :
    df.colsMatching c.1 = [c.2] := by
  unfold DataFrame.colsMatching
  rw [filter_fst_of_nodup c df.cols hnd hc]
  rfl

/-- Calling `reset_index(drop=True)` does not change the columns. -/
theorem colsMatching_resetIndexDrop (df : DataFrame) (m : String) :
    (df.resetIndexDrop).colsMatching m = df.colsMatching m := rfl

/-- Calling `reset_index(drop=True)` preserves the row count. -/
theorem index_length_resetIndexDrop (df : DataFrame) :
    (df.resetIndexDrop).index.length = df.index.length := by
  simp [DataFrame.resetIndexDrop]

/-- Calling `reset_index()` leaves every label other than `index` untouched. -/
theorem colsMatching_resetIndex_ne (df : DataFrame) (m : String) (h : ¬ ("index" = m)) :
    (df.resetIndex).colsMatching m = df.colsMatching m := by
  unfold DataFrame.resetIndex DataFrame.colsMatching
  simp [List.filter_cons, h]

/-- Calling `reset_index()` preserves the row count. -/
theorem index_length_resetIndex (df : DataFrame) :
    (df.resetIndex).index.length = df.index.length := by
  simp [DataFrame.resetIndex]

/-- Reading a whole list positionally through `getD` is just mapping over it. -/
theorem range_map_getD (f : Cell → Option Cell) (d : Cell) :
    ∀ (n : Nat) (u : List Cell), u.length = n →
      (List.range n).map (fun j => f (u.getD j d)) = u.map f := by
  intro n
  induction n with
  | zero =>
      intro u hu
      rw [List.length_eq_zero] at hu
      subst hu
      simp
  | succ m ih =>
      intro u hu
      cases u with
      | nil => simp at hu
      | cons x u' =>
          rw [List.range_succ_eq_map, List.map_cons, List.map_map, List.map_cons]
          congr 1
          rw [← ih u' (by simpa using hu)]
          apply List.map_congr_left
          intro j _
          simp [Function.comp, List.getD_cons_succ]

/-- Reading two equally long lists positionally builds their pointwise pairs. -/
theorem range_map_getD_pair (d : Cell) :
    ∀ (n : Nat) (u w : List Cell), u.length = n → w.length = n →
      (List.range n).map (fun j => [u.getD j d, w.getD j d]) =
        List.zipWith (fun x y => [x, y]) u w := by
  intro n
  induction n with
  | zero =>
      intro u w hu hw
      rw [List.length_eq_zero] at hu hw
      subst hu; subst hw
      simp
  | succ m ih =>
      intro u w hu hw
      cases u with
      | nil => simp at hu
      | cons x u' =>
          cases w with
          | nil => simp at hw
          | cons y w' =>
              rw [List.range_succ_eq_map, List.map_cons, List.map_map,
                List.zipWith_cons_cons]
              congr 1
              rw [← ih u' w' (by simpa using hu) (by simpa using hw)]
              apply List.map_congr_left
              intro j _
              simp [Function.comp, List.getD_cons_succ]

/-- Selecting `data.loc[:, (a, b)].values.tolist()` with unique matches for both labels:
the rows are the pointwise `[x, y]` pairs of the two columns. -/
theorem locList_pair (df : DataFrame) (a b : String) (u w : List Cell)
    (ha : df.colsMatching a = [u]) (hb : df.colsMatching b = [w])
    (hu : u.length = df.index.length) (hw : w.length = df.index.length) :
    df.locList [a, b] = List.zipWith (fun x y => [x, y]) u w := by
  unfold DataFrame.locList
  rw [show ([a, b].flatMap df.colsMatching) = df.colsMatching a ++ df.colsMatching b by
    simp]
  rw [ha, hb]
  simp only [List.cons_append, List.nil_append, List.map_cons, List.map_nil]
  exact range_map_getD_pair (Cell.num 0) df.index.length u w hu hw

/-- Head of every `data.loc[:, (a, n)]` row, when label `a` resolves to one or
more copies of column `v`: the row heads list `v` in order, whatever the second
label resolves to. -/
theorem locList_head (df : DataFrame) (a n : String) (v : List Cell) (k : Nat)
    (ha : df.colsMatching a = List.replicate (k + 1) v)
    (hv : v.length = df.index.length) :
    (df.locList [a, n]).map List.head? = v.map some := by
  unfold DataFrame.locList
  rw [show ([a, n].flatMap df.colsMatching) = df.colsMatching a ++ df.colsMatching n by
    simp]
  rw [ha, List.map_map]
  have hcongr : ∀ j ∈ List.range df.index.length,
      (List.head? ∘ fun j => (List.replicate (k + 1) v ++ df.colsMatching n).map
        (fun c => c.getD j (Cell.num 0))) j = some (v.getD j (Cell.num 0)) := by
    intro j _
    simp [List.replicate_succ]
  rw [List.map_congr_left hcongr]
  exact range_map_getD (fun c => some c) (Cell.num 0) df.index.length v hv

/-- Dereferencing below the old length is unaffected by allocation. -/
theorem storeGet_append_lt (st : Store) (l : List DataFrame) (r : Nat)
    (h : r < st.length) :
    storeGet (st ++ l) r = storeGet st r := by
  simp [storeGet, List.getD_eq_getElem?_getD, List.getElem?_append, h]

/-- Dereferencing another cell is unaffected by an in-place write. -/
theorem storeGet_set_ne (st : Store) (i r : Nat) (d : DataFrame) (h : i ≠ r) :
    storeGet (st.set i d) r = storeGet st r := by
  simp [storeGet, List.getD_eq_getElem?_getD, List.getElem?_set_ne h]

/-- The second frame of `line_secondary_y` is prepared with a non-drop
`reset_index()`. -/
def prepLine2 (df : DataFrame) : DataFrame :=
  (df.setColumn "date_field" (df.index.map Cell.time)).resetIndex

/-- Preparation preserves the row count. -/
theorem prepLine_index_length (df : DataFrame) :
    (prepLine df).index.length = df.index.length := by
  unfold prepLine
  rw [index_length_resetIndexDrop]
  unfold DataFrame.setColumn
  split <;> rfl

/-- Preparation with `reset_index()` preserves the row count. -/
theorem prepLine2_index_length (df : DataFrame) :
    (prepLine2 df).index.length = df.index.length := by
  unfold prepLine2
  rw [index_length_resetIndex]
  unfold DataFrame.setColumn
  split <;> rfl

/-- After preparation the `date_field` label resolves to copies of the
timestamp column. -/
theorem prepLine_colsMatching_date (df : DataFrame) :
    ∃ k : Nat, (prepLine df).colsMatching "date_field" =
      List.replicate (k + 1) (df.index.map Cell.time) := by
  unfold prepLine
  rw [colsMatching_resetIndexDrop]
  exact colsMatching_setColumn_self df _ _

/-- Same for the `reset_index()` preparation: the inserted `index` column does
not carry the `date_field` label. -/
theorem prepLine2_colsMatching_date (df : DataFrame) :
    ∃ k : Nat, (prepLine2 df).colsMatching "date_field" =
      List.replicate (k + 1) (df.index.map Cell.time) := by
  unfold prepLine2
  rw [colsMatching_resetIndex_ne _ _ (by decide)]
  exact colsMatching_setColumn_self df _ _

/-- With distinct labels the prepared `date_field` column is unique. -/
theorem prepLine_colsMatching_date_nodup (df : DataFrame)
    (hnd : (df.cols.map Prod.fst).Nodup) :
    (prepLine df).colsMatching "date_field" = [df.index.map Cell.time] := by
  unfold prepLine
  rw [colsMatching_resetIndexDrop]
  exact colsMatching_setColumn_self_nodup df _ _ hnd

/-- Preparation leaves all other labels untouched. -/
theorem prepLine_colsMatching_other (df : DataFrame) (m : String)
    (hm : m ≠ "date_field") :
    (prepLine df).colsMatching m = df.colsMatching m := by
  unfold prepLine
  rw [colsMatching_resetIndexDrop]
  exact colsMatching_setColumn_other df _ m _ hm

/-- Closed form of the data sets attached by `line_chart`. -/
theorem line_chart_series (df : DataFrame) (y t : String) (rs nd : Int) (lg : Bool)
    (fx fy : Int) :
    (line_chart df y t rs nd lg fx fy).series =
      (df.cols.map Prod.fst).map (fun n =>
        ⟨(prepLine df).locList ["date_field", n], "line", n, none, 0, none⟩) := by
  unfold line_chart line_chart_core prepLine DataFrame.copy
  dsimp only
  rw [lineLoop_series]
  simp [Highstock, Chart.setDictOptions]

/-- Closed form of the data sets attached by `line_customline`. -/
theorem line_customline_series (df : DataFrame) (pd : Int) (y t : String)
    (rs nd : Int) (lt : String) (lg : Bool) (fx fy : Int) :
    (line_customline df pd y t rs nd lt lg fx fy).series =
      (df.cols.map Prod.fst).map (fun n =>
        ⟨(prepLine df).locList ["date_field", n], "line", n, none, 0, none⟩) := by
  unfold line_customline line_customline_core prepLine DataFrame.copy
  dsimp only
  rw [lineLoop_series]
  simp [Highstock, Chart.setDictOptions]

/-- Closed form of the data sets attached by `line_pct_change`. -/
theorem line_pct_change_series (df : DataFrame) (y t : String) (rs nd : Int)
    (lg : Bool) (fx fy : Int) :
    (line_pct_change df y t rs nd lg fx fy).series =
      (df.cols.map Prod.fst).map (fun n =>
        ⟨(prepLine df).locList ["date_field", n], "line", n, none, 0, none⟩) := by
  unfold line_pct_change line_pct_change_core prepLine DataFrame.copy
  dsimp only
  rw [lineLoop_series]
  simp [Highstock, Chart.setDictOptions]

/-- Closed form of the data sets attached by `line_secondary_y`: first all
series of the first frame on axis 0, then all series of the second frame on
axis 1. -/
theorem line_secondary_y_series (df df2 : DataFrame) (sy y t : String)
    (rs nd : Int) (fx fy : Int) :
    (line_secondary_y df df2 sy y t rs nd fx fy).series =
      (df.cols.map Prod.fst).map (fun n =>
        ⟨(prepLine df).locList ["date_field", n], "line", n, none, 0, none⟩) ++
      (df2.cols.map Prod.fst).map (fun n =>
        ⟨(prepLine2 df2).locList ["date_field", n], "line", n, none, 1, none⟩) := by
  unfold line_secondary_y line_secondary_y_core prepLine prepLine2 DataFrame.copy
  dsimp only
  rw [lineLoop_series, lineLoop_series]
  simp [Highstock, Chart.setDictOptions]

/-- The list `default_colors` has exactly 100 entries. -/
theorem defaultColors_length : defaultColors.length = 100 := by decide

/-- Below index 100 the default colour lookup succeeds with the palette entry. -/
theorem areaColor_none_ok (n : Nat) (norm : Option NormF) {i : Nat} (hi : i < 100) :
    areaColor n norm none i = Except.ok (defaultColors.getD i "") := by
  have hi' : i < defaultColors.length := by rw [defaultColors_length]; exact hi
  unfold areaColor
  rw [show defaultColors.get? i = some (defaultColors.getD i "") by
    rw [List.get?_eq_getElem?, List.getElem?_eq_getElem hi', List.getD_eq_getElem?_getD,
      List.getElem?_eq_getElem hi']
    rfl]

/-- Repetition of the ten-colour palette is cyclic below index 100. -/
theorem defaultColors_cyclic :
    ∀ i < 100, defaultColors.getD i "" = palette10.getD (i % 10) "" := by decide

/-- Mapping over a list of index/value pairs that came from `enum`, using only
the values, is mapping over the list. -/
theorem enum_map_snd_comp {β : Type} (l : List String) (g : String → β) :
    l.enum.map (fun p => g p.2) = l.map g := by
  rw [show (fun p : Nat × String => g p.2) = g ∘ Prod.snd from rfl, ← List.map_map,
    List.enum_map_snd]

/-- Closed form of `area_stacked` when every colour lookup succeeds. -/
theorem area_stackedE_eq (df : DataFrame) (y t : String) (rs nd : Int) (lg : Bool)
    (norm : Option NormF) (cmap : Option String) (fx fy : Int) (colorVal : Nat → String)
    (hc : ∀ p ∈ (df.cols.map Prod.fst).enum,
      areaColor (df.cols.map Prod.fst).length norm cmap p.1 = Except.ok (colorVal p.1)) :
    area_stackedE df y t rs nd lg norm cmap fx fy =
      Except.ok ⟨fx, fy,
        (df.cols.map Prod.fst).enum.map (fun p =>
          ⟨(prepLine df).locList ["date_field", p.2], "area", p.2,
           some (colorVal p.1), 0, none⟩),
        area_stacked_options y t rs nd lg⟩ := by
  unfold area_stackedE area_stacked_core prepLine DataFrame.copy
  dsimp only
  rw [areaLoop_ok _ _ _ _ colorVal _ _ hc]
  simp [Highstock, Chart.setDictOptions]

/-- Closed form of `area_pct_total` when every colour lookup succeeds. -/
theorem area_pct_totalE_eq (df : DataFrame) (y t : String) (rs nd : Int) (lg : Bool)
    (norm : Option NormF) (cmap : Option String) (fx fy : Int) (colorVal : Nat → String)
    (hc : ∀ p ∈ (df.cols.map Prod.fst).enum,
      areaColor (df.cols.map Prod.fst).length norm cmap p.1 = Except.ok (colorVal p.1)) :
    area_pct_totalE df y t rs nd lg norm cmap fx fy =
      Except.ok ⟨fx, fy,
        (df.cols.map Prod.fst).enum.map (fun p =>
          ⟨(prepLine df).locList ["date_field", p.2], "area", p.2,
           some (colorVal p.1), 0, none⟩),
        area_pct_total_options y t rs nd lg⟩ := by
  unfold area_pct_totalE area_pct_total_core prepLine DataFrame.copy
  dsimp only
  rw [areaLoop_ok _ _ _ _ colorVal _ _ hc]
  simp [Highstock, Chart.setDictOptions]

/-- Name/data projection and options of any successful `area_stacked` run. -/
theorem area_stackedE_proj (df : DataFrame) (y t : String) (rs nd : Int) (lg : Bool)
    (norm : Option NormF) (cmap : Option String) (fx fy : Int) (H : Chart)
    (hok : area_stackedE df y t rs nd lg norm cmap fx fy = Except.ok H) :
    H.series.map (fun s => (s.name, s.data)) =
      (df.cols.map Prod.fst).map (fun n => (n, (prepLine df).locList ["date_field", n])) ∧
    H.options = area_stacked_options y t rs nd lg := by
  unfold area_stackedE area_stacked_core DataFrame.copy at hok
  dsimp only at hok
  unfold prepLine
  cases hE : areaLoop ((df.setColumn "date_field" (List.map Cell.time df.index)).resetIndexDrop)
      (List.map Prod.fst df.cols).length norm cmap (List.map Prod.fst df.cols).enum
      (Highstock fx fy) with
  | error e => rw [hE] at hok; cases hok
  | ok H' =>
      rw [hE] at hok
      have hs := areaLoop_series_proj _ _ _ _ _ _ _ hE
      cases hok
      constructor
      · rw [Chart.setDictOptions]
        dsimp only
        rw [hs]
        simp only [Highstock, List.map_nil, List.nil_append]
        exact enum_map_snd_comp (List.map Prod.fst df.cols)
          (fun n => (n, ((df.setColumn "date_field"
            (List.map Cell.time df.index)).resetIndexDrop).locList ["date_field", n]))
      · rfl

/-- Name/data projection and options of any successful `area_pct_total` run. -/
theorem area_pct_totalE_proj (df : DataFrame) (y t : String) (rs nd : Int) (lg : Bool)
    (norm : Option NormF) (cmap : Option String) (fx fy : Int) (H : Chart)
    (hok : area_pct_totalE df y t rs nd lg norm cmap fx fy = Except.ok H) :
    H.series.map (fun s => (s.name, s.data)) =
      (df.cols.map Prod.fst).map (fun n => (n, (prepLine df).locList ["date_field", n])) ∧
    H.options = area_pct_total_options y t rs nd lg := by
  unfold area_pct_totalE area_pct_total_core DataFrame.copy at hok
  dsimp only at hok
  unfold prepLine
  cases hE : areaLoop ((df.setColumn "date_field" (List.map Cell.time df.index)).resetIndexDrop)
      (List.map Prod.fst df.cols).length norm cmap (List.map Prod.fst df.cols).enum
      (Highstock fx fy) with
  | error e => rw [hE] at hok; cases hok
  | ok H' =>
      rw [hE] at hok
      have hs := areaLoop_series_proj _ _ _ _ _ _ _ hE
      cases hok
      constructor
      · rw [Chart.setDictOptions]
        dsimp only
        rw [hs]
        simp only [Highstock, List.map_nil, List.nil_append]
        exact enum_map_snd_comp (List.map Prod.fst df.cols)
          (fun n => (n, ((df.setColumn "date_field"
            (List.map Cell.time df.index)).resetIndexDrop).locList ["date_field", n]))
      · rfl

/-- C7: for every pair of input tables passed to `line_secondary_y`, all series
from the first table are attached to y-axis index 0 and all series from the
second table to y-axis index 1, and the second y-axis is configured with
`opposite` set to `False`. -/
theorem c7_secondary_axis_assignment (df df2 : DataFrame) (sy y t : String)
    (rs nd fx fy : Int) :
    ((line_secondary_y df df2 sy y t rs nd fx fy).series.map (fun s => (s.name, s.yAxis)) =
      (df.cols.map Prod.fst).map (fun n => (n, 0)) ++
      (df2.cols.map Prod.fst).map (fun n => (n, 1))) ∧
    (line_secondary_y df df2 sy y t rs nd fx fy).options.getKey "yAxis" =
      some (J.arr [
        J.obj [("title", J.obj [("text", J.str y),
                                ("style", J.obj [("fontSize", J.str "14px")])])],
        J.obj [("title", J.obj [("text", J.str sy),
                                ("style", J.obj [("fontSize", J.str "14px")])]),
               ("opposite", J.bool false)]]) := by
  constructor
  · rw [line_secondary_y_series]
    simp only [List.map_append, List.map_map]
    rfl
  · rfl

/-- C10: `boxplot` on a frame without exactly two columns fails at the
positional column rename with the pandas length-mismatch error and returns no
chart handle, so no series data is attached. -/
theorem c10_boxplot_rename_failure (df : DataFrame) (y t x : String) (nd : Nat)
    (fx fy : Int) (h : df.cols.length ≠ 2) :
    boxplotE df y t nd x fx fy =
      Except.error ("Length mismatch: Expected axis has " ++ toString df.cols.length ++
        " elements, new values have 2 elements") := by
  obtain ⟨idx, cols⟩ := df
  unfold boxplotE DataFrame.copy
  dsimp only at h ⊢
  rcases cols with _ | ⟨c0, _ | ⟨c1, _ | ⟨c2, rest⟩⟩⟩
  · rfl
  · rfl
  · exact absurd rfl h
  · rfl

/-- Witness for C10 at a concrete three-column frame. -/
theorem c10_boxplot_rename_failure_witness :
    dfBad3.cols.length ≠ 2 ∧
    boxplotE dfBad3 "y" "t" 2 "x" 900 700 =
      Except.error
        "Length mismatch: Expected axis has 3 elements, new values have 2 elements" :=
  ⟨by decide, c10_boxplot_rename_failure dfBad3 "y" "t" "x" 2 900 700 (by decide)⟩

/-- Wire view of one attached line/area series: the head of each row is the
timestamp of that row, and its wire serialisation is that timestamp in epoch milliseconds. -/
theorem locList_head_wire (P df : DataFrame) (n : String) (k : Nat)
    (hP : P.colsMatching "date_field" = List.replicate (k + 1) (df.index.map Cell.time))
    (hlen : P.index.length = df.index.length) :
    (P.locList ["date_field", n]).map (fun row => row.head?.bind Cell.wireMs) =
      df.index.map (fun ts => some (Int.fdiv ts 1000000)) := by
  have h1 : (P.locList ["date_field", n]).map List.head? =
      (df.index.map Cell.time).map some :=
    locList_head P "date_field" n (df.index.map Cell.time) k hP
      (by rw [List.length_map, hlen])
  have h2 : (P.locList ["date_field", n]).map (fun row => row.head?.bind Cell.wireMs) =
      ((P.locList ["date_field", n]).map List.head?).map (fun o => o.bind Cell.wireMs) := by
    rw [List.map_map]
    rfl
  rw [h2, h1]
  simp [List.map_map, Cell.wireMs, Function.comp]

/-- C2: in the reshape output of every builder, the x-component of each
attached pair is the timestamp of its row, and its wire serialisation (performed by the
charting collaborator, modelled from the spec by `Cell.wireMs`) is the integer
count of epoch milliseconds of that timestamp, in original row order. -/
theorem c2_x_is_epoch_ms (df df2 : DataFrame) (y t sy lt : String)
    (pd rs nd fx fy : Int) (lg : Bool) (norm : Option NormF) (cmap : Option String) :
    (∀ s ∈ (line_chart df y t rs nd lg fx fy).series,
        s.data.map (fun row => row.head?.bind Cell.wireMs) =
          df.index.map (fun ts => some (Int.fdiv ts 1000000))) ∧
    (∀ s ∈ (line_customline df pd y t rs nd lt lg fx fy).series,
        s.data.map (fun row => row.head?.bind Cell.wireMs) =
          df.index.map (fun ts => some (Int.fdiv ts 1000000))) ∧
    (∀ s ∈ (line_pct_change df y t rs nd lg fx fy).series,
        s.data.map (fun row => row.head?.bind Cell.wireMs) =
          df.index.map (fun ts => some (Int.fdiv ts 1000000))) ∧
    (∀ s ∈ (line_secondary_y df df2 sy y t rs nd fx fy).series,
        s.data.map (fun row => row.head?.bind Cell.wireMs) =
          df.index.map (fun ts => some (Int.fdiv ts 1000000)) ∨
        s.data.map (fun row => row.head?.bind Cell.wireMs) =
          df2.index.map (fun ts => some (Int.fdiv ts 1000000))) ∧
    (∀ H, area_stackedE df y t rs nd lg norm cmap fx fy = Except.ok H →
      ∀ p ∈ seriesNameData H,
        p.2.map (fun row => row.head?.bind Cell.wireMs) =
          df.index.map (fun ts => some (Int.fdiv ts 1000000))) ∧
    (∀ H, area_pct_totalE df y t rs nd lg norm cmap fx fy = Except.ok H →
      ∀ p ∈ seriesNameData H,
        p.2.map (fun row => row.head?.bind Cell.wireMs) =
          df.index.map (fun ts => some (Int.fdiv ts 1000000))) := by
  obtain ⟨k, hk⟩ := prepLine_colsMatching_date df
  have hw : ∀ n : String,
      ((prepLine df).locList ["date_field", n]).map (fun row => row.head?.bind Cell.wireMs) =
        df.index.map (fun ts => some (Int.fdiv ts 1000000)) :=
    fun n => locList_head_wire (prepLine df) df n k hk (prepLine_index_length df)
  obtain ⟨k2, hk2⟩ := prepLine2_colsMatching_date df2
  have hw2 : ∀ n : String,
      ((prepLine2 df2).locList ["date_field", n]).map (fun row => row.head?.bind Cell.wireMs) =
        df2.index.map (fun ts => some (Int.fdiv ts 1000000)) :=
    fun n => locList_head_wire (prepLine2 df2) df2 n k2 hk2 (prepLine2_index_length df2)
  refine ⟨?_, ?_, ?_, ?_, ?_, ?_⟩
  · intro s hs
    rw [line_chart_series] at hs
    obtain ⟨n, _, rfl⟩ := List.mem_map.mp hs
    exact hw n
  · intro s hs
    rw [line_customline_series] at hs
    obtain ⟨n, _, rfl⟩ := List.mem_map.mp hs
    exact hw n
  · intro s hs
    rw [line_pct_change_series] at hs
    obtain ⟨n, _, rfl⟩ := List.mem_map.mp hs
    exact hw n
  · intro s hs
    rw [line_secondary_y_series] at hs
    rcases List.mem_append.mp hs with hs1 | hs2
    · obtain ⟨n, _, rfl⟩ := List.mem_map.mp hs1
      exact Or.inl (hw n)
    · obtain ⟨n, _, rfl⟩ := List.mem_map.mp hs2
      exact Or.inr (hw2 n)
  · intro H hok p hp
    obtain ⟨hproj, _⟩ := area_stackedE_proj df y t rs nd lg norm cmap fx fy H hok
    unfold seriesNameData at hp
    rw [hproj] at hp
    obtain ⟨n, _, rfl⟩ := List.mem_map.mp hp
    exact hw n
  · intro H hok p hp
    obtain ⟨hproj, _⟩ := area_pct_totalE_proj df y t rs nd lg norm cmap fx fy H hok
    unfold seriesNameData at hp
    rw [hproj] at hp
    obtain ⟨n, _, rfl⟩ := List.mem_map.mp hp
    exact hw n

/-- Finding by equality in a list containing the sought element returns the
element itself. -/
theorem find?_eq_self (a : String) :
    ∀ l : List String, a ∈ l → l.find? (fun n => n = a) = some a := by
  intro l
  induction l with
  | nil => intro h; cases h
  | cons x xs ih =>
      intro h
      by_cases hx : x = a
      · rw [List.find?_cons_of_pos _ (by simp [hx])]
        rw [hx]
      · rcases List.mem_cons.mp h with rfl | hmem
        · exact absurd rfl hx
        · rw [List.find?_cons_of_neg _ (by simp [hx])]
          exact ih hmem

/-- When the input already owns a `date_field` column (unique labels), the
prepared frame pairs each timestamp with itself for that label. -/
theorem prep_locList_self (df : DataFrame) (hnd : (df.cols.map Prod.fst).Nodup) :
    (prepLine df).locList ["date_field", "date_field"] =
      df.index.map (fun ts => [Cell.time ts, Cell.time ts]) := by
  have hd := prepLine_colsMatching_date_nodup df hnd
  rw [locList_pair (prepLine df) "date_field" "date_field"
      (df.index.map Cell.time) (df.index.map Cell.time) hd hd
      (by rw [List.length_map, prepLine_index_length])
      (by rw [List.length_map, prepLine_index_length])]
  rw [List.zipWith_same, List.map_map]
  rfl

/-- C9: a column literally named `date_field` is silently overwritten with the
index before reshaping, so the series emitted under that name pairs each
timestamp with itself instead of the original values of the column. -/
theorem c9_date_field_overwritten (df : DataFrame)
    (hnd : (df.cols.map Prod.fst).Nodup)
    (hmem : "date_field" ∈ df.cols.map Prod.fst)
    (y t lt : String) (pd rs nd fx fy : Int) (lg : Bool)
    (norm : Option NormF) (cmap : Option String) :
    ((seriesNameData (line_chart df y t rs nd lg fx fy)).find?
        (fun p => p.1 = "date_field") =
      some ("date_field", df.index.map (fun ts => [Cell.time ts, Cell.time ts]))) ∧
    ((seriesNameData (line_customline df pd y t rs nd lt lg fx fy)).find?
        (fun p => p.1 = "date_field") =
      some ("date_field", df.index.map (fun ts => [Cell.time ts, Cell.time ts]))) ∧
    ((seriesNameData (line_pct_change df y t rs nd lg fx fy)).find?
        (fun p => p.1 = "date_field") =
      some ("date_field", df.index.map (fun ts => [Cell.time ts, Cell.time ts]))) ∧
    (∀ H, area_stackedE df y t rs nd lg norm cmap fx fy = Except.ok H →
      (seriesNameData H).find? (fun p => p.1 = "date_field") =
        some ("date_field", df.index.map (fun ts => [Cell.time ts, Cell.time ts]))) ∧
    (∀ H, area_pct_totalE df y t rs nd lg norm cmap fx fy = Except.ok H →
      (seriesNameData H).find? (fun p => p.1 = "date_field") =
        some ("date_field", df.index.map (fun ts => [Cell.time ts, Cell.time ts]))) := by
  have hself := prep_locList_self df hnd
  have hfind : ∀ D : String → List (List Cell),
      (((df.cols.map Prod.fst).map (fun n => (n, D n))).find?
        (fun p => p.1 = "date_field")) = some ("date_field", D "date_field") := by
    intro D
    rw [List.find?_map]
    have hf : ((df.cols.map Prod.fst).find?
        ((fun p : String × List (List Cell) => decide (p.1 = "date_field")) ∘
          (fun n => (n, D n)))) = some "date_field" :=
      find?_eq_self "date_field" (df.cols.map Prod.fst) hmem
    rw [hf]
    rfl
  refine ⟨?_, ?_, ?_, ?_, ?_⟩
  · have hsnd : seriesNameData (line_chart df y t rs nd lg fx fy) =
        (df.cols.map Prod.fst).map
          (fun n => (n, (prepLine df).locList ["date_field", n])) := by
      unfold seriesNameData
      rw [line_chart_series, List.map_map]
      rfl
    rw [hsnd, hfind (fun n => (prepLine df).locList ["date_field", n])]
    rw [hself]
  · have hsnd : seriesNameData (line_customline df pd y t rs nd lt lg fx fy) =
        (df.cols.map Prod.fst).map
          (fun n => (n, (prepLine df).locList ["date_field", n])) := by
      unfold seriesNameData
      rw [line_customline_series, List.map_map]
      rfl
    rw [hsnd, hfind (fun n => (prepLine df).locList ["date_field", n])]
    rw [hself]
  · have hsnd : seriesNameData (line_pct_change df y t rs nd lg fx fy) =
        (df.cols.map Prod.fst).map
          (fun n => (n, (prepLine df).locList ["date_field", n])) := by
      unfold seriesNameData
      rw [line_pct_change_series, List.map_map]
      rfl
    rw [hsnd, hfind (fun n => (prepLine df).locList ["date_field", n])]
    rw [hself]
  · intro H hok
    obtain ⟨hproj, _⟩ := area_stackedE_proj df y t rs nd lg norm cmap fx fy H hok
    have hsnd : seriesNameData H =
        (df.cols.map Prod.fst).map
          (fun n => (n, (prepLine df).locList ["date_field", n])) := hproj
    rw [hsnd, hfind (fun n => (prepLine df).locList ["date_field", n])]
    rw [hself]
  · intro H hok
    obtain ⟨hproj, _⟩ := area_pct_totalE_proj df y t rs nd lg norm cmap fx fy H hok
    have hsnd : seriesNameData H =
        (df.cols.map Prod.fst).map
          (fun n => (n, (prepLine df).locList ["date_field", n])) := hproj
    rw [hsnd, hfind (fun n => (prepLine df).locList ["date_field", n])]
    rw [hself]

/-- Witness for C9 at a concrete frame whose only column is named
`date_field`. -/
theorem c9_date_field_overwritten_witness :
    ((dfDF.cols.map Prod.fst).Nodup ∧ "date_field" ∈ dfDF.cols.map Prod.fst) ∧
    (((seriesNameData (line_chart dfDF "" "T" 1 2 true 900 700)).find?
        (fun p => p.1 = "date_field") =
      some ("date_field", dfDF.index.map (fun ts => [Cell.time ts, Cell.time ts]))) ∧
    ((seriesNameData (line_customline dfDF 0 "" "T" 1 2 "" true 900 700)).find?
        (fun p => p.1 = "date_field") =
      some ("date_field", dfDF.index.map (fun ts => [Cell.time ts, Cell.time ts]))) ∧
    ((seriesNameData (line_pct_change dfDF "" "T" 1 2 true 900 700)).find?
        (fun p => p.1 = "date_field") =
      some ("date_field", dfDF.index.map (fun ts => [Cell.time ts, Cell.time ts]))) ∧
    (∀ H, area_stackedE dfDF "" "T" 1 2 true none none 900 700 = Except.ok H →
      (seriesNameData H).find? (fun p => p.1 = "date_field") =
        some ("date_field", dfDF.index.map (fun ts => [Cell.time ts, Cell.time ts]))) ∧
    (∀ H, area_pct_totalE dfDF "" "T" 1 2 true none none 900 700 = Except.ok H →
      (seriesNameData H).find? (fun p => p.1 = "date_field") =
        some ("date_field", dfDF.index.map (fun ts => [Cell.time ts, Cell.time ts])))) :=
  ⟨⟨by decide, by decide⟩,
   c9_date_field_overwritten dfDF (by decide) (by decide) "" "T" "" 0 1 2 900 700 true
     none none⟩

/-- With distinct labels, none of them `date_field`, and a well-formed frame,
the reshape of a member column pairs each timestamp with the values of that column
in row order. -/
theorem prep_locList_named (df : DataFrame) (hnd : (df.cols.map Prod.fst).Nodup)
    (hdf : "date_field" ∉ df.cols.map Prod.fst) (hwf : df.wf)
    (c : String × List Cell) (hc : c ∈ df.cols) :
    (prepLine df).locList ["date_field", c.1] = linePairs df.index c.2 := by
  have hne : c.1 ≠ "date_field" := fun he => hdf (he ▸ List.mem_map_of_mem Prod.fst hc)
  have hb : (prepLine df).colsMatching c.1 = [c.2] := by
    rw [prepLine_colsMatching_other df c.1 hne]
    exact colsMatching_of_nodup df hnd c hc
  have ha := prepLine_colsMatching_date_nodup df hnd
  rw [locList_pair (prepLine df) "date_field" c.1 (df.index.map Cell.time) c.2 ha hb
      (by rw [List.length_map, prepLine_index_length])
      (by rw [prepLine_index_length]; exact hwf c hc)]
  unfold linePairs
  rw [List.zipWith_map_left]

/-- C1 (amended): provided the column labels are pairwise distinct and none is
`date_field`, every line/area builder run that returns a chart attaches exactly
one series per column, in column order and under the name of the column, whose
data is the values of the column paired with the timestamps in original row order — with
one `[timestamp, value]` pair per input row. -/
theorem c1_reshape_amended (df : DataFrame)
    (hnd : (df.cols.map Prod.fst).Nodup)
    (hdf : "date_field" ∉ df.cols.map Prod.fst) (hwf : df.wf)
    (y t lt : String) (pd rs nd fx fy : Int) (lg : Bool)
    (norm : Option NormF) (cmap : Option String) :
    (seriesNameData (line_chart df y t rs nd lg fx fy) =
      df.cols.map (fun c => (c.1, linePairs df.index c.2))) ∧
    (seriesNameData (line_customline df pd y t rs nd lt lg fx fy) =
      df.cols.map (fun c => (c.1, linePairs df.index c.2))) ∧
    (seriesNameData (line_pct_change df y t rs nd lg fx fy) =
      df.cols.map (fun c => (c.1, linePairs df.index c.2))) ∧
    (∀ H, area_stackedE df y t rs nd lg norm cmap fx fy = Except.ok H →
      seriesNameData H = df.cols.map (fun c => (c.1, linePairs df.index c.2))) ∧
    (∀ H, area_pct_totalE df y t rs nd lg norm cmap fx fy = Except.ok H →
      seriesNameData H = df.cols.map (fun c => (c.1, linePairs df.index c.2))) ∧
    (∀ c ∈ df.cols, (linePairs df.index c.2).length = df.index.length) := by
  have hloc := prep_locList_named df hnd hdf hwf
  have hmapped : (df.cols.map Prod.fst).map
      (fun n => (n, (prepLine df).locList ["date_field", n])) =
      df.cols.map (fun c => (c.1, linePairs df.index c.2)) := by
    rw [List.map_map]
    apply List.map_congr_left
    intro c hc
    simp only [Function.comp]
    rw [hloc c hc]
  refine ⟨?_, ?_, ?_, ?_, ?_, ?_⟩
  · have hsnd : seriesNameData (line_chart df y t rs nd lg fx fy) =
        (df.cols.map Prod.fst).map
          (fun n => (n, (prepLine df).locList ["date_field", n])) := by
      unfold seriesNameData
      rw [line_chart_series, List.map_map]
      rfl
    rw [hsnd, hmapped]
  · have hsnd : seriesNameData (line_customline df pd y t rs nd lt lg fx fy) =
        (df.cols.map Prod.fst).map
          (fun n => (n, (prepLine df).locList ["date_field", n])) := by
      unfold seriesNameData
      rw [line_customline_series, List.map_map]
      rfl
    rw [hsnd, hmapped]
  · have hsnd : seriesNameData (line_pct_change df y t rs nd lg fx fy) =
        (df.cols.map Prod.fst).map
          (fun n => (n, (prepLine df).locList ["date_field", n])) := by
      unfold seriesNameData
      rw [line_pct_change_series, List.map_map]
      rfl
    rw [hsnd, hmapped]
  · intro H hok
    obtain ⟨hproj, _⟩ := area_stackedE_proj df y t rs nd lg norm cmap fx fy H hok
    have hsnd : seriesNameData H =
        (df.cols.map Prod.fst).map
          (fun n => (n, (prepLine df).locList ["date_field", n])) := hproj
    rw [hsnd, hmapped]
  · intro H hok
    obtain ⟨hproj, _⟩ := area_pct_totalE_proj df y t rs nd lg norm cmap fx fy H hok
    have hsnd : seriesNameData H =
        (df.cols.map Prod.fst).map
          (fun n => (n, (prepLine df).locList ["date_field", n])) := hproj
    rw [hsnd, hmapped]
  · intro c hc
    unfold linePairs
    rw [List.length_zipWith, hwf c hc]
    exact Nat.min_self _

/-- Counterexample to C1 as stated: on a table whose only column is named
`date_field`, `line_chart` emits the pair list `[[t, t]]` — the timestamp
paired with itself — not the value 5 the column held. -/
theorem c1_reshape_cex :
    ((line_chart dfDF "" "T" 1 2 true 900 700).series.map (fun s => s.data) =
      [[[Cell.time 0, Cell.time 0]]]) ∧
    dfDF.cols.map Prod.snd = [[Cell.num 5]] ∧
    Cell.time 0 ≠ Cell.num 5 :=
  ⟨rfl, rfl, by decide⟩

/-- Witness for the amended C1 at a concrete two-column frame. -/
theorem c1_reshape_amended_witness :
    ((dfW.cols.map Prod.fst).Nodup ∧ "date_field" ∉ dfW.cols.map Prod.fst ∧ dfW.wf) ∧
    ((seriesNameData (line_chart dfW "" "T" 1 2 true 900 700) =
      dfW.cols.map (fun c => (c.1, linePairs dfW.index c.2))) ∧
    (seriesNameData (line_customline dfW 0 "" "T" 1 2 "" true 900 700) =
      dfW.cols.map (fun c => (c.1, linePairs dfW.index c.2))) ∧
    (seriesNameData (line_pct_change dfW "" "T" 1 2 true 900 700) =
      dfW.cols.map (fun c => (c.1, linePairs dfW.index c.2))) ∧
    (∀ H, area_stackedE dfW "" "T" 1 2 true none none 900 700 = Except.ok H →
      seriesNameData H = dfW.cols.map (fun c => (c.1, linePairs dfW.index c.2))) ∧
    (∀ H, area_pct_totalE dfW "" "T" 1 2 true none none 900 700 = Except.ok H →
      seriesNameData H = dfW.cols.map (fun c => (c.1, linePairs dfW.index c.2))) ∧
    (∀ c ∈ dfW.cols, (linePairs dfW.index c.2).length = dfW.index.length)) :=
  ⟨⟨by decide, by decide, by decide⟩,
   c1_reshape_amended dfW (by decide) (by decide) (by decide) "" "T" "" 0 1 2 900 700 true
     none none⟩

/-- C6 (amended): with no colormap and at most 100 columns, both stacked-area
builders succeed and assign series `i` the colour `palette[i mod 10]` from the
fixed ten-colour default palette; past 100 series the lookup into the
100-element `default_colors` list raises instead (see the counterexample). -/
theorem c6_palette_amended (df : DataFrame) (y t : String) (rs nd : Int) (lg : Bool)
    (norm : Option NormF) (fx fy : Int) (hlen : df.cols.length ≤ 100) :
    (∃ H, area_stackedE df y t rs nd lg norm none fx fy = Except.ok H ∧
      H.series.map Series.color =
        (List.range df.cols.length).map (fun i => some (palette10.getD (i % 10) ""))) ∧
    (∃ H, area_pct_totalE df y t rs nd lg norm none fx fy = Except.ok H ∧
      H.series.map Series.color =
        (List.range df.cols.length).map (fun i => some (palette10.getD (i % 10) ""))) := by
  have hc : ∀ p ∈ (df.cols.map Prod.fst).enum,
      areaColor (df.cols.map Prod.fst).length norm none p.1 =
        Except.ok ((fun i => defaultColors.getD i "") p.1) := by
    intro p hp
    obtain ⟨i, n⟩ := p
    obtain ⟨h1, _⟩ := List.mem_enum hp
    have h2 : i < 100 := lt_of_lt_of_le (by simpa using h1) (by simpa using hlen)
    exact areaColor_none_ok _ norm h2
  have hcolors : (df.cols.map Prod.fst).enum.map
        (fun p => some (defaultColors.getD p.1 "")) =
      (List.range df.cols.length).map (fun i => some (palette10.getD (i % 10) "")) := by
    have h1 : (df.cols.map Prod.fst).enum.map (fun p => some (defaultColors.getD p.1 "")) =
        ((df.cols.map Prod.fst).enum.map Prod.fst).map
          (fun i => some (defaultColors.getD i "")) := by
      rw [List.map_map]
      rfl
    rw [h1, List.enum_map_fst, List.length_map]
    apply List.map_congr_left
    intro i hi
    rw [defaultColors_cyclic i (lt_of_lt_of_le (List.mem_range.mp hi) hlen)]
  constructor
  · refine ⟨_, area_stackedE_eq df y t rs nd lg norm none fx fy
      (fun i => defaultColors.getD i "") hc, ?_⟩
    rw [List.map_map]
    exact hcolors
  · refine ⟨_, area_pct_totalE_eq df y t rs nd lg norm none fx fy
      (fun i => defaultColors.getD i "") hc, ?_⟩
    rw [List.map_map]
    exact hcolors

/-- Counterexample to C6 as stated: with 101 columns and no colormap,
`area_stacked` raises the list `IndexError` at series index 100 instead of
cycling the palette, so no colour is assigned for that series index. -/
theorem c6_palette_cex :
    area_stackedE df101 "" "T" 1 2 true none none 900 700 =
      Except.error "list index out of range" := by
  rfl

/-- Witness for the amended C6 at a concrete two-column frame. -/
theorem c6_palette_amended_witness :
    dfW.cols.length ≤ 100 ∧
    ((∃ H, area_stackedE dfW "" "T" 1 2 true none none 900 700 = Except.ok H ∧
      H.series.map Series.color =
        (List.range dfW.cols.length).map (fun i => some (palette10.getD (i % 10) ""))) ∧
    (∃ H, area_pct_totalE dfW "" "T" 1 2 true none none 900 700 = Except.ok H ∧
      H.series.map Series.color =
        (List.range dfW.cols.length).map (fun i => some (palette10.getD (i % 10) "")))) :=
  ⟨by decide,
   c6_palette_amended dfW "" "T" 1 2 true none 900 700 (by decide)⟩

/-- Given identical inputs the two stacked-area builders attach identical data
sets — same data, names, types, colours — or fail identically. -/
theorem areaSeries_agree (df : DataFrame) (y t : String) (rs nd : Int) (lg : Bool)
    (norm : Option NormF) (cmap : Option String) (fx fy : Int) :
    (area_pct_totalE df y t rs nd lg norm cmap fx fy).map Chart.series =
      (area_stackedE df y t rs nd lg norm cmap fx fy).map Chart.series := by
  unfold area_pct_totalE area_stackedE area_pct_total_core area_stacked_core DataFrame.copy
  dsimp only
  cases hE : areaLoop ((df.setColumn "date_field" (List.map Cell.time df.index)).resetIndexDrop)
      (List.map Prod.fst df.cols).length norm cmap (List.map Prod.fst df.cols).enum
      (Highstock fx fy) with
  | error e => rfl
  | ok H => rfl

/-- C5 (amended): given identical inputs, `area_pct_total` differs from
`area_stacked` only in the y-axis title text (`Percent of` prefix), the area
stacking mode (`percent` vs `normal`) and the tooltip point/date format
entries; series reshaping and colouring are identical.  Every other option
section agrees. -/
theorem c5_pct_total_vs_stacked_amended (df : DataFrame) (y t : String)
    (rs nd : Int) (lg : Bool) (norm : Option NormF) (cmap : Option String)
    (fx fy : Int) :
    ((area_pct_totalE df y t rs nd lg norm cmap fx fy).map Chart.series =
      (area_stackedE df y t rs nd lg norm cmap fx fy).map Chart.series) ∧
    ((area_pct_total_options y t rs nd lg).keys =
      (area_stacked_options y t rs nd lg).keys) ∧
    ((area_pct_total_options y t rs nd lg).getKey "legend" =
      (area_stacked_options y t rs nd lg).getKey "legend") ∧
    ((area_pct_total_options y t rs nd lg).getKey "rangeSelector" =
      (area_stacked_options y t rs nd lg).getKey "rangeSelector") ∧
    ((area_pct_total_options y t rs nd lg).getKey "title" =
      (area_stacked_options y t rs nd lg).getKey "title") ∧
    ((area_pct_total_options y t rs nd lg).getKey "xAxis" =
      (area_stacked_options y t rs nd lg).getKey "xAxis") ∧
    (((area_pct_total_options y t rs nd lg).getKey "yAxis").map J.keys =
      ((area_stacked_options y t rs nd lg).getKey "yAxis").map J.keys) ∧
    (((area_pct_total_options y t rs nd lg).getKey "yAxis").bind
        (fun a => a.getKey "labels") =
      ((area_stacked_options y t rs nd lg).getKey "yAxis").bind
        (fun a => a.getKey "labels")) ∧
    (((area_pct_total_options y t rs nd lg).getKey "yAxis").bind
        (fun a => (a.getKey "title").bind (fun b => b.getKey "style")) =
      ((area_stacked_options y t rs nd lg).getKey "yAxis").bind
        (fun a => (a.getKey "title").bind (fun b => b.getKey "style"))) ∧
    (((area_pct_total_options y t rs nd lg).getKey "yAxis").bind
        (fun a => (a.getKey "title").bind (fun b => b.getKey "text")) =
      some (J.str ("Percent of " ++ y))) ∧
    (((area_stacked_options y t rs nd lg).getKey "yAxis").bind
        (fun a => (a.getKey "title").bind (fun b => b.getKey "text")) =
      some (J.str y)) ∧
    (((area_pct_total_options y t rs nd lg).getKey "tooltip").bind
        (fun a => a.getKey "shared") =
      ((area_stacked_options y t rs nd lg).getKey "tooltip").bind
        (fun a => a.getKey "shared")) ∧
    (((area_pct_total_options y t rs nd lg).getKey "tooltip").bind
        (fun a => a.getKey "valueDecimals") =
      ((area_stacked_options y t rs nd lg).getKey "tooltip").bind
        (fun a => a.getKey "valueDecimals")) ∧
    (((area_pct_total_options y t rs nd lg).getKey "tooltip").map J.keys =
      some ["shared", "pointFormat", "valueDecimals"]) ∧
    (((area_stacked_options y t rs nd lg).getKey "tooltip").map J.keys =
      some ["shared", "xDateFormat", "valueDecimals"]) ∧
    (((area_pct_total_options y t rs nd lg).getKey "tooltip").bind
        (fun a => a.getKey "pointFormat") = some (J.str pctTotalPointFormat)) ∧
    (((area_stacked_options y t rs nd lg).getKey "tooltip").bind
        (fun a => a.getKey "xDateFormat") = some (J.str "%A, %b %d, %Y")) ∧
    (((area_pct_total_options y t rs nd lg).getKey "plotOptions").bind
        (fun a => (a.getKey "area").bind (fun b => b.getKey "stacking")) =
      some (J.str "percent")) ∧
    (((area_stacked_options y t rs nd lg).getKey "plotOptions").bind
        (fun a => (a.getKey "area").bind (fun b => b.getKey "stacking")) =
      some (J.str "normal")) ∧
    (((area_pct_total_options y t rs nd lg).getKey "plotOptions").bind
        (fun a => (a.getKey "area").bind (fun b => b.getKey "connectNulls")) =
      ((area_stacked_options y t rs nd lg).getKey "plotOptions").bind
        (fun a => (a.getKey "area").bind (fun b => b.getKey "connectNulls"))) ∧
    (((area_pct_total_options y t rs nd lg).getKey "plotOptions").bind
        (fun a => (a.getKey "area").bind (fun b => b.getKey "lineWidth")) =
      ((area_stacked_options y t rs nd lg).getKey "plotOptions").bind
        (fun a => (a.getKey "area").bind (fun b => b.getKey "lineWidth"))) ∧
    (((area_pct_total_options y t rs nd lg).getKey "plotOptions").bind
        (fun a => (a.getKey "area").bind (fun b => b.getKey "marker")) =
      ((area_stacked_options y t rs nd lg).getKey "plotOptions").bind
        (fun a => (a.getKey "area").bind (fun b => b.getKey "marker"))) ∧
    (((area_pct_total_options y t rs nd lg).getKey "plotOptions").bind
        (fun a => (a.getKey "area").map J.keys) =
      ((area_stacked_options y t rs nd lg).getKey "plotOptions").bind
        (fun a => (a.getKey "area").map J.keys)) :=
  ⟨areaSeries_agree df y t rs nd lg norm cmap fx fy,
   rfl, rfl, rfl, rfl, rfl, rfl, rfl, rfl, rfl, rfl, rfl, rfl, rfl, rfl, rfl, rfl,
   rfl, rfl, rfl, rfl, rfl, rfl⟩

/-- Counterexample to C5 as stated: the tooltips also differ — `area_stacked`
sets `xDateFormat` while `area_pct_total` omits it (it sets `pointFormat`
instead), a difference outside the y-axis title and stacking mode. -/
theorem c5_pct_total_vs_stacked_cex :
    ((area_stackedE dfA "Y" "T" 1 2 true none none 900 700).map
      (fun H => (H.options.getKey "tooltip").bind (fun o => o.getKey "xDateFormat")) =
      Except.ok (some (J.str "%A, %b %d, %Y"))) ∧
    ((area_pct_totalE dfA "Y" "T" 1 2 true none none 900 700).map
      (fun H => (H.options.getKey "tooltip").bind (fun o => o.getKey "xDateFormat")) =
      Except.ok none) :=
  ⟨rfl, rfl⟩

/-- Copy–mutate–allocate chain of the single-frame builders leaves every
pre-existing store cell unchanged. -/
theorem storeGet_copy_mutate_alloc (st : Store) (r : Nat) (hr : r < st.length)
    (z x y : DataFrame) :
    storeGet (((st ++ [z]).set st.length x) ++ [y]) r = storeGet st r := by
  rw [storeGet_append_lt _ _ _ (by simp [List.length_set, List.length_append]; omega)]
  rw [storeGet_set_ne _ _ _ _ (by omega)]
  exact storeGet_append_lt st [z] r hr

/-- Copy–mutate chain (no trailing allocation), as in `boxplot`. -/
theorem storeGet_copy_mutate (st : Store) (r : Nat) (hr : r < st.length)
    (z x : DataFrame) :
    storeGet ((st ++ [z]).set st.length x) r = storeGet st r := by
  rw [storeGet_set_ne _ _ _ _ (by omega)]
  exact storeGet_append_lt st [z] r hr

/-- The double copy–mutate–allocate chain of `line_secondary_y` leaves every
pre-existing store cell unchanged. -/
theorem storeGet_secondary_chain (st : Store) (r : Nat) (hr : r < st.length)
    (z1 z2 x1 y1 x2 y2 : DataFrame) :
    storeGet ((((((st ++ [z1]) ++ [z2]).set st.length x1) ++ [y1]).set
        ((st ++ [z1]).length) x2) ++ [y2]) r = storeGet st r := by
  rw [storeGet_append_lt _ _ _
    (by simp [List.length_set, List.length_append]; omega)]
  rw [storeGet_set_ne _ _ _ _ (by simp [List.length_append]; omega)]
  rw [storeGet_append_lt _ _ _
    (by simp [List.length_set, List.length_append]; omega)]
  rw [storeGet_set_ne _ _ _ _ (by omega)]
  rw [storeGet_append_lt _ _ _ (by simp [List.length_append]; omega)]
  exact storeGet_append_lt st [z1] r hr

/-- C8: no builder mutates a caller-supplied table — in the store-based
embedding, after any builder call the frame object of the caller is unchanged (every
builder copies first and mutates only its private copy). -/
theorem c8_no_caller_mutation (st : Store) (r rB : Nat)
    (hr : r < st.length) (hrB : rB < st.length)
    (y t sy lt x : String) (pd rs nd fx fy : Int) (ndN : Nat) (lg : Bool)
    (norm : Option NormF) (cmap : Option String) :
    (storeGet (line_chart_heap st r y t rs nd lg fx fy).1 r = storeGet st r) ∧
    (storeGet (line_customline_heap st r pd y t rs nd lt lg fx fy).1 r = storeGet st r) ∧
    (storeGet (area_stacked_heap st r y t rs nd lg norm cmap fx fy).1 r = storeGet st r) ∧
    (storeGet (area_pct_total_heap st r y t rs nd lg norm cmap fx fy).1 r = storeGet st r) ∧
    (storeGet (line_secondary_y_heap st r rB sy y t rs nd fx fy).1 r = storeGet st r) ∧
    (storeGet (line_secondary_y_heap st r rB sy y t rs nd fx fy).1 rB = storeGet st rB) ∧
    (storeGet (boxplot_heap st r y t ndN x fx fy).1 r = storeGet st r) ∧
    (storeGet (line_pct_change_heap st r y t rs nd lg fx fy).1 r = storeGet st r) := by
  refine ⟨?_, ?_, ?_, ?_, ?_, ?_, ?_, ?_⟩
  · unfold line_chart_heap
    dsimp only
    exact storeGet_copy_mutate_alloc st r hr _ _ _
  · unfold line_customline_heap
    dsimp only
    exact storeGet_copy_mutate_alloc st r hr _ _ _
  · unfold area_stacked_heap
    dsimp only
    exact storeGet_copy_mutate_alloc st r hr _ _ _
  · unfold area_pct_total_heap
    dsimp only
    exact storeGet_copy_mutate_alloc st r hr _ _ _
  · unfold line_secondary_y_heap
    dsimp only
    exact storeGet_secondary_chain st r hr _ _ _ _ _ _
  · unfold line_secondary_y_heap
    dsimp only
    exact storeGet_secondary_chain st rB hrB _ _ _ _ _ _
  · unfold boxplot_heap
    dsimp only
    split
    · exact storeGet_copy_mutate st r hr _ _
    · exact storeGet_append_lt st _ r hr
  · unfold line_pct_change_heap
    dsimp only
    exact storeGet_copy_mutate_alloc st r hr _ _ _

/-- Witness for C8 on a one-frame store. -/
theorem c8_no_caller_mutation_witness :
    (0 < ([dfW] : Store).length) ∧
    ((storeGet (line_chart_heap [dfW] 0 "" "T" 1 2 true 900 700).1 0 =
        storeGet [dfW] 0) ∧
    (storeGet (line_customline_heap [dfW] 0 0 "" "T" 1 2 "" true 900 700).1 0 =
        storeGet [dfW] 0) ∧
    (storeGet (area_stacked_heap [dfW] 0 "" "T" 1 2 true none none 900 700).1 0 =
        storeGet [dfW] 0) ∧
    (storeGet (area_pct_total_heap [dfW] 0 "" "T" 1 2 true none none 900 700).1 0 =
        storeGet [dfW] 0) ∧
    (storeGet (line_secondary_y_heap [dfW] 0 0 "S" "" "T" 1 2 900 700).1 0 =
        storeGet [dfW] 0) ∧
    (storeGet (line_secondary_y_heap [dfW] 0 0 "S" "" "T" 1 2 900 700).1 0 =
        storeGet [dfW] 0) ∧
    (storeGet (boxplot_heap [dfW] 0 "" "T" 2 "x" 900 700).1 0 =
        storeGet [dfW] 0) ∧
    (storeGet (line_pct_change_heap [dfW] 0 "" "T" 1 2 true 900 700).1 0 =
        storeGet [dfW] 0)) :=
  ⟨by decide,
   c8_no_caller_mutation [dfW] 0 0 (by decide) (by decide) "" "T" "S" "" "x" 0 1 2 900 700
     2 true none none⟩

/-- On a two-column frame `boxplot` succeeds and builds the core chart from the
two column value lists. -/
theorem boxplotE_two_cols (df : DataFrame) (n0 n1 : String) (v0 v1 : List Cell)
    (hcols : df.cols = [(n0, v0), (n1, v1)]) (y t x : String) (nd : Nat) (fx fy : Int) :
    boxplotE df y t nd x fx fy = Except.ok (boxplot_core v0 v1 y t nd x fx fy) := by
  unfold boxplotE DataFrame.copy
  dsimp only
  rw [hcols]

/-- Every emitted group is a multiset of rows of the original input. -/
theorem boxGroup_perm (c0 c1 : List Cell) (k : Cell) :
    (boxGroup c0 c1 k).Perm (groupValues c0 c1 k) := by
  unfold boxGroup groupValues sortedRows
  exact List.Perm.map _ (List.Perm.filter _ (List.perm_insertionSort _ _))

/-- Every emitted group key is a value of the first (grouping) column. -/
theorem boxKeys_mem (c0 c1 : List Cell) (k : Cell) (hk : k ∈ boxKeys c0 c1) :
    k ∈ c0 := by
  unfold boxKeys at hk
  rw [List.mem_insertionSort, List.mem_dedup] at hk
  obtain ⟨⟨ka, vb⟩, hr, rfl⟩ := List.mem_map.mp hk
  unfold sortedRows at hr
  rw [List.mem_insertionSort] at hr
  exact (List.of_mem_zip hr).1

/-- C3: for every two-column table, each boxplot record is computed only from the
value subset that the group has in the original input, and its five quantiles are
non-decreasing. -/
theorem c3_boxplot_group_quantiles (df : DataFrame) (n0 n1 : String)
    (v0 v1 : List Cell) (hcols : df.cols = [(n0, v0), (n1, v1)])
    (y t x : String) (nd : Nat) (fx fy : Int) :
    ∃ H, boxplotE df y t nd x fx fy = Except.ok H ∧
      H.series.map (fun s => s.data) = [boxRows v0 v1] ∧
      ∀ row ∈ boxRows v0 v1, ∃ k, k ∈ v0 ∧
        row = boxRow (groupValues v0 v1 k) k ∧
        quantile (groupValues v0 v1 k) 0 ≤ quantile (groupValues v0 v1 k) (1/4) ∧
        quantile (groupValues v0 v1 k) (1/4) ≤ quantile (groupValues v0 v1 k) (1/2) ∧
        quantile (groupValues v0 v1 k) (1/2) ≤ quantile (groupValues v0 v1 k) (3/4) ∧
        quantile (groupValues v0 v1 k) (3/4) ≤ quantile (groupValues v0 v1 k) 1 := by
  refine ⟨_, boxplotE_two_cols df n0 n1 v0 v1 hcols y t x nd fx fy, rfl, ?_⟩
  intro row hrow
  unfold boxRows at hrow
  obtain ⟨k, hk, rfl⟩ := List.mem_map.mp hrow
  have hq : ∀ p : Rat, quantile (boxGroup v0 v1 k) p = quantile (groupValues v0 v1 k) p :=
    fun p => quantile_congr_perm (boxGroup_perm v0 v1 k) p
  refine ⟨k, boxKeys_mem v0 v1 k hk, ?_, ?_, ?_, ?_, ?_⟩
  · unfold boxRow
    rw [hq, hq, hq, hq, hq]
  · exact quantile_mono _ (by norm_num) (by norm_num) (by norm_num)
  · exact quantile_mono _ (by norm_num) (by norm_num) (by norm_num)
  · exact quantile_mono _ (by norm_num) (by norm_num) (by norm_num)
  · exact quantile_mono _ (by norm_num) (by norm_num) (by norm_num)

/-- Witness for C3 at a concrete two-group frame. -/
theorem c3_boxplot_group_quantiles_witness :
    (dfBox.cols =
      [("d", [Cell.time 0, Cell.time 0, Cell.time 86400000000000,
              Cell.time 86400000000000]),
       ("v", [Cell.num 1, Cell.num 3, Cell.num 2, Cell.num 5])]) ∧
    (∃ H, boxplotE dfBox "y" "t" 2 "x" 900 700 = Except.ok H ∧
      H.series.map (fun s => s.data) =
        [boxRows
          [Cell.time 0, Cell.time 0, Cell.time 86400000000000, Cell.time 86400000000000]
          [Cell.num 1, Cell.num 3, Cell.num 2, Cell.num 5]] ∧
      ∀ row ∈ boxRows
          [Cell.time 0, Cell.time 0, Cell.time 86400000000000, Cell.time 86400000000000]
          [Cell.num 1, Cell.num 3, Cell.num 2, Cell.num 5],
        ∃ k, k ∈ [Cell.time 0, Cell.time 0, Cell.time 86400000000000,
                  Cell.time 86400000000000] ∧
        row = boxRow (groupValues
          [Cell.time 0, Cell.time 0, Cell.time 86400000000000, Cell.time 86400000000000]
          [Cell.num 1, Cell.num 3, Cell.num 2, Cell.num 5] k) k ∧
        quantile (groupValues
          [Cell.time 0, Cell.time 0, Cell.time 86400000000000, Cell.time 86400000000000]
          [Cell.num 1, Cell.num 3, Cell.num 2, Cell.num 5] k) 0 ≤
          quantile (groupValues
          [Cell.time 0, Cell.time 0, Cell.time 86400000000000, Cell.time 86400000000000]
          [Cell.num 1, Cell.num 3, Cell.num 2, Cell.num 5] k) (1/4) ∧
        quantile (groupValues
          [Cell.time 0, Cell.time 0, Cell.time 86400000000000, Cell.time 86400000000000]
          [Cell.num 1, Cell.num 3, Cell.num 2, Cell.num 5] k) (1/4) ≤
          quantile (groupValues
          [Cell.time 0, Cell.time 0, Cell.time 86400000000000, Cell.time 86400000000000]
          [Cell.num 1, Cell.num 3, Cell.num 2, Cell.num 5] k) (1/2) ∧
        quantile (groupValues
          [Cell.time 0, Cell.time 0, Cell.time 86400000000000, Cell.time 86400000000000]
          [Cell.num 1, Cell.num 3, Cell.num 2, Cell.num 5] k) (1/2) ≤
          quantile (groupValues
          [Cell.time 0, Cell.time 0, Cell.time 86400000000000, Cell.time 86400000000000]
          [Cell.num 1, Cell.num 3, Cell.num 2, Cell.num 5] k) (3/4) ∧
        quantile (groupValues
          [Cell.time 0, Cell.time 0, Cell.time 86400000000000, Cell.time 86400000000000]
          [Cell.num 1, Cell.num 3, Cell.num 2, Cell.num 5] k) (3/4) ≤
          quantile (groupValues
          [Cell.time 0, Cell.time 0, Cell.time 86400000000000, Cell.time 86400000000000]
          [Cell.num 1, Cell.num 3, Cell.num 2, Cell.num 5] k) 1) :=
  ⟨rfl,
   c3_boxplot_group_quantiles dfBox "d" "v"
     [Cell.time 0, Cell.time 0, Cell.time 86400000000000, Cell.time 86400000000000]
     [Cell.num 1, Cell.num 3, Cell.num 2, Cell.num 5] rfl "y" "t" "x" 2 900 700⟩

/-- C4: the horizontal reference plotline of `boxplot` carries the arithmetic
mean of all values of the (original) value column — not per group — rounded to
`num_decimals` places, and the plotline label text embeds that rounded value. -/
theorem c4_boxplot_mean_plotline (df : DataFrame) (n0 n1 : String)
    (v0 v1 : List Cell) (hcols : df.cols = [(n0, v0), (n1, v1)]) (hwf : df.wf)
    (y t x : String) (nd : Nat) (fx fy : Int) :
    ∃ H, boxplotE df y t nd x fx fy = Except.ok H ∧
      ((((H.options.getKey "yAxis").bind (fun a => a.getKey "plotLines")).bind
          J.firstElem).bind (fun o => o.getKey "value") =
        some (J.rat (pyRound (ratMean (v1.map cellVal)) nd))) ∧
      ((((H.options.getKey "yAxis").bind (fun a => a.getKey "plotLines")).bind
          J.firstElem).bind (fun o => (o.getKey "label").bind (fun l => l.getKey "text")) =
        some (J.str ("Mean: " ++ toString (pyRound (ratMean (v1.map cellVal)) nd) ++
          "  "))) := by
  have hlen : v1.length ≤ v0.length := by
    have h0 := hwf (n0, v0) (by rw [hcols]; exact List.mem_cons_self _ _)
    have h1 := hwf (n1, v1)
      (by rw [hcols]; exact List.mem_cons_of_mem _ (List.mem_cons_self _ _))
    simp only at h0 h1
    omega
  have heq : (v0.zip v1).map (fun r : Cell × Cell => cellVal r.2) = v1.map cellVal := by
    calc (v0.zip v1).map (fun r : Cell × Cell => cellVal r.2)
        = ((v0.zip v1).map Prod.snd).map cellVal := by rw [List.map_map]; rfl
      _ = v1.map cellVal := by rw [List.map_snd_zip v0 v1 hlen]
  have hmean : boxMean v0 v1 nd = pyRound (ratMean (v1.map cellVal)) nd := by
    unfold boxMean
    congr 1
    apply ratMean_congr_perm
    have hperm : ((sortedRows v0 v1).map (fun r : Cell × Cell => cellVal r.2)).Perm
        ((v0.zip v1).map (fun r : Cell × Cell => cellVal r.2)) := by
      unfold sortedRows
      exact List.Perm.map _ (List.perm_insertionSort _ _)
    rw [heq] at hperm
    exact hperm
  refine ⟨_, boxplotE_two_cols df n0 n1 v0 v1 hcols y t x nd fx fy, ?_, ?_⟩
  · have hval : ∀ M : Rat,
        (((((boxplot_options y t x nd M).getKey "yAxis").bind
          (fun a => a.getKey "plotLines")).bind J.firstElem).bind
            (fun o => o.getKey "value")) = some (J.rat M) := fun M => rfl
    rw [← hmean]
    exact hval (boxMean v0 v1 nd)
  · have htext : ∀ M : Rat,
        (((((boxplot_options y t x nd M).getKey "yAxis").bind
          (fun a => a.getKey "plotLines")).bind J.firstElem).bind
            (fun o => (o.getKey "label").bind (fun l => l.getKey "text"))) =
          some (J.str ("Mean: " ++ toString M ++ "  ")) := fun M => rfl
    rw [← hmean]
    exact htext (boxMean v0 v1 nd)

/-- Witness for C4 at a concrete two-group frame. -/
theorem c4_boxplot_mean_plotline_witness :
    (dfBox.cols =
      [("d", [Cell.time 0, Cell.time 0, Cell.time 86400000000000,
              Cell.time 86400000000000]),
       ("v", [Cell.num 1, Cell.num 3, Cell.num 2, Cell.num 5])] ∧ dfBox.wf) ∧
    (∃ H, boxplotE dfBox "y" "t" 2 "x" 900 700 = Except.ok H ∧
      ((((H.options.getKey "yAxis").bind (fun a => a.getKey "plotLines")).bind
          J.firstElem).bind (fun o => o.getKey "value") =
        some (J.rat (pyRound (ratMean
          ([Cell.num 1, Cell.num 3, Cell.num 2, Cell.num 5].map cellVal)) 2))) ∧
      ((((H.options.getKey "yAxis").bind (fun a => a.getKey "plotLines")).bind
          J.firstElem).bind (fun o => (o.getKey "label").bind (fun l => l.getKey "text")) =
        some (J.str ("Mean: " ++ toString (pyRound (ratMean
          ([Cell.num 1, Cell.num 3, Cell.num 2, Cell.num 5].map cellVal)) 2) ++
          "  ")))) :=
  ⟨⟨rfl, by decide⟩,
   c4_boxplot_mean_plotline dfBox "d" "v"
     [Cell.time 0, Cell.time 0, Cell.time 86400000000000, Cell.time 86400000000000]
     [Cell.num 1, Cell.num 3, Cell.num 2, Cell.num 5] rfl (by decide) "y" "t" "x" 2
     900 700⟩

/-- Witness for C2 at a concrete two-column frame. -/
theorem c2_x_is_epoch_ms_witness :
    (∀ s ∈ (line_chart dfW "" "T" 1 2 true 900 700).series,
        s.data.map (fun row => row.head?.bind Cell.wireMs) =
          dfW.index.map (fun ts => some (Int.fdiv ts 1000000))) ∧
    (∀ s ∈ (line_customline dfW 0 "" "T" 1 2 "" true 900 700).series,
        s.data.map (fun row => row.head?.bind Cell.wireMs) =
          dfW.index.map (fun ts => some (Int.fdiv ts 1000000))) ∧
    (∀ s ∈ (line_pct_change dfW "" "T" 1 2 true 900 700).series,
        s.data.map (fun row => row.head?.bind Cell.wireMs) =
          dfW.index.map (fun ts => some (Int.fdiv ts 1000000))) ∧
    (∀ s ∈ (line_secondary_y dfW dfA "S" "" "T" 1 2 900 700).series,
        s.data.map (fun row => row.head?.bind Cell.wireMs) =
          dfW.index.map (fun ts => some (Int.fdiv ts 1000000)) ∨
        s.data.map (fun row => row.head?.bind Cell.wireMs) =
          dfA.index.map (fun ts => some (Int.fdiv ts 1000000))) ∧
    (∀ H, area_stackedE dfW "" "T" 1 2 true none none 900 700 = Except.ok H →
      ∀ p ∈ seriesNameData H,
        p.2.map (fun row => row.head?.bind Cell.wireMs) =
          dfW.index.map (fun ts => some (Int.fdiv ts 1000000))) ∧
    (∀ H, area_pct_totalE dfW "" "T" 1 2 true none none 900 700 = Except.ok H →
      ∀ p ∈ seriesNameData H,
        p.2.map (fun row => row.head?.bind Cell.wireMs) =
          dfW.index.map (fun ts => some (Int.fdiv ts 1000000))) :=
  c2_x_is_epoch_ms dfW dfA "" "T" "S" "" 0 1 2 900 700 true none none
